import Mathlib

/-!
Verification of the staged AI-generation pipeline of the Vibeathon-create
backend.  Python strings are modelled as `List Char`; every Python string
operation used by the code (substring test, `str.split`, `str.replace`,
`str.strip`, `str.lower`, ...) is re-implemented as an executable Lean
function with the same semantics.  Fallible Python code (raising) is
modelled with `Except`; provider/network calls are abstracted as
`Except`-valued inputs.
-/

/-- Python strings, modelled as lists of characters. -/
abbrev Str := List Char

/-- Convert a Lean string literal to the `Str` model. -/
def str (s : String) : Str := s.data

namespace PyStr

/-- Python `needle in haystack` (substring containment). -/
def hasSub (n : Str) : Str → Bool
  | [] => n.isEmpty
  | c :: t => n.isPrefixOf (c :: t) || hasSub n t

/-- Python `str.lower()` (ASCII case folding suffices for the inputs used). -/
def lower (s : Str) : Str := s.map Char.toLower

/-- Python `str.startswith(p)`. -/
def startsWith (s p : Str) : Bool := p.isPrefixOf s

/-- Python whitespace test used by `str.strip()`. -/
def isSpace (c : Char) : Bool := c.isWhitespace

/-- Python `str.strip()`: drop leading and trailing whitespace. -/
def strip (s : Str) : Str :=
  ((s.dropWhile isSpace).reverse.dropWhile isSpace).reverse

/-- Helper for `split`: accumulate the current piece until `sep` occurs.
The `!sep.isEmpty` guard only rules out the empty separator, on which the
Python original raises; all call sites pass non-empty separators.  `fuel`
is instantiated with the string length, which always suffices because
every separator hit consumes at least one character. -/
def splitGo (sep : Str) : Nat → Str → Str → List Str
  | 0, acc, s => [acc.reverse ++ s]
  | _ + 1, acc, [] => [acc.reverse]
  | fuel + 1, acc, c :: t =>
    if sep.isPrefixOf (c :: t) && !sep.isEmpty then
      acc.reverse :: splitGo sep fuel [] ((c :: t).drop sep.length)
    else
      splitGo sep fuel (c :: acc) t

/-- Python `str.split(sep)` for a non-empty separator. -/
def split (s sep : Str) : List Str := splitGo sep s.length [] s

/-- Python `str.replace(old, new)` (all non-overlapping occurrences, left
to right).  The `!old.isEmpty` guard only rules out the empty pattern,
which no call site uses; `fuel` is instantiated with the string length. -/
def replaceGo (old new : Str) : Nat → Str → Str
  | 0, s => s
  | _ + 1, [] => []
  | fuel + 1, c :: t =>
    if old.isPrefixOf (c :: t) && !old.isEmpty then
      new ++ replaceGo old new fuel ((c :: t).drop old.length)
    else
      c :: replaceGo old new fuel t

/-- Python `str.replace(old, new)`. -/
def replace (s old new : Str) : Str := replaceGo old new s.length s

/-- Python `", ".join(xs)`. -/
def joinWith (sep : Str) (xs : List Str) : Str := List.intercalate sep xs

end PyStr

open PyStr

/-! ## `app/file_handler.py` — artifact storage

The persistent per-project file store is modelled as an association list
from (project id, filename) to content; a later write shadows an earlier
one. -/

namespace FileHandler

/-- The `ALLOWED_FILES` table of `file_handler.py`: filename to type tag. -/
def ALLOWED_FILES : List (Str × Str) :=
  [(str "index.html", str "html"), (str "style.css", str "css"), (str "script.js", str "js")]

/-- The allowed filenames (the keys of `ALLOWED_FILES`, in order). -/
def allowedFileNames : List Str := ALLOWED_FILES.map Prod.fst

/-- State of the on-disk project store. -/
abbrev Storage := List ((Str × Str) × Str)

/-- Look up the current content of a file, if it exists. -/
def lookupFile (fs : Storage) (pid fname : Str) : Option Str :=
  (fs.find? (fun e => e.1.1 == pid && e.1.2 == fname)).map Prod.snd

/-- The `ValueError` message raised for a filename outside `ALLOWED_FILES`. -/
def invalidFilenameMsg : Str :=
  str "Invalid filename. Allowed: " ++ joinWith (str ", ") allowedFileNames

/-- The `save_file` function of `file_handler.py`. -/
def save_file (fs : Storage) (pid fname content : Str) : Except Str Storage :=
  if allowedFileNames.contains fname then
    Except.ok (((pid, fname), content) :: fs)
  else
    Except.error invalidFilenameMsg

/-- The `get_file` function of `file_handler.py`: `ok none` models the
Python `None` returned for a missing file. -/
def get_file (fs : Storage) (pid fname : Str) : Except Str (Option Str) :=
  if allowedFileNames.contains fname then
    Except.ok (lookupFile fs pid fname)
  else
    Except.error invalidFilenameMsg

/-- The `get_all_files` function of `file_handler.py`. -/
def get_all_files (fs : Storage) (pid : Str) : Except Str (List (Str × Str)) :=
  allowedFileNames.mapM
    (fun fname => (get_file fs pid fname).map (fun c => (fname, c.getD (str ""))))

end FileHandler

/-- C7: writing an artifact with an allowed filename via `save_file` and
immediately reading it back via `get_file` returns exactly the content
written, for every store state, project id and content. -/
theorem save_file_get_file_roundtrip (fs : FileHandler.Storage) (pid fname content : Str)
    (h : FileHandler.allowedFileNames.contains fname = true) :
    ∃ fs2, FileHandler.save_file fs pid fname content = Except.ok fs2 ∧
      FileHandler.get_file fs2 pid fname = Except.ok (some content) := by
  refine ⟨((pid, fname), content) :: fs, ?_, ?_⟩
  · simp only [FileHandler.save_file, h, if_true]
  · simp only [FileHandler.get_file, h, if_true]
    simp [FileHandler.lookupFile, List.find?]

/-- C7 witness: the round trip at a concrete store, id, filename, content. -/
theorem save_file_get_file_roundtrip_witness :
    FileHandler.allowedFileNames.contains (str "style.css") = true ∧
    ∃ fs2, FileHandler.save_file [] (str "p1") (str "style.css") (str "body: red") = Except.ok fs2 ∧
      FileHandler.get_file fs2 (str "p1") (str "style.css") = Except.ok (some (str "body: red")) :=
  ⟨by decide, save_file_get_file_roundtrip [] (str "p1") (str "style.css") (str "body: red") (by decide)⟩

/-- C9: `get_all_files` is total — for every store state and project id it
succeeds and returns exactly the three allowed filenames as keys, in
order, substituting the empty string for any file that does not exist. -/
theorem get_all_files_total_three_keys (fs : FileHandler.Storage) (pid : Str) :
    FileHandler.get_all_files fs pid =
      Except.ok
        [(str "index.html", (FileHandler.lookupFile fs pid (str "index.html")).getD (str "")),
         (str "style.css", (FileHandler.lookupFile fs pid (str "style.css")).getD (str "")),
         (str "script.js", (FileHandler.lookupFile fs pid (str "script.js")).getD (str ""))] := by
  rfl

/-! ## Substring lemmas used by several claims -/

/-- A substring of the right part of an append is a substring of the whole. -/
theorem hasSub_append_right (n a b : Str) (h : hasSub n b = true) :
    hasSub n (a ++ b) = true := by
  induction a with
  | nil => simpa using h
  | cons c t ih =>
    simp only [List.cons_append, hasSub, Bool.or_eq_true]
    exact Or.inr ih

/-- Prefix test is monotone under shortening the pattern. -/
theorem isPrefixOf_of_append_isPrefixOf (n m l : Str)
    (h : (n ++ m).isPrefixOf l = true) : n.isPrefixOf l = true := by
  rw [List.isPrefixOf_iff_prefix] at h ⊢
  exact (List.prefix_append n m).trans h

/-- If an extended pattern occurs as a substring, so does the original. -/
theorem hasSub_of_hasSub_append (n m l : Str)
    (h : hasSub (n ++ m) l = true) : hasSub n l = true := by
  induction l with
  | nil =>
    simp only [hasSub, List.isEmpty_iff, List.append_eq_nil] at h ⊢
    exact h.1
  | cons c t ih =>
    simp only [hasSub, Bool.or_eq_true] at h ⊢
    rcases h with h | h
    · exact Or.inl (isPrefixOf_of_append_isPrefixOf n m (c :: t) h)
    · exact Or.inr (ih h)

/-! ## `app/design_references.py` — design reference catalog -/

namespace DesignReferences

/-- One entry of the `DESIGN_PATTERNS` catalog. -/
structure DesignPattern where
  description : Str
  color_scheme : List Str
  layout : Str
  features : List Str
  example_html_snippet : Option Str
  example_css_snippet : Option Str
deriving DecidableEq, Repr

/-- The static `DESIGN_PATTERNS` catalog. -/
def DESIGN_PATTERNS : List (Str × DesignPattern) :=
  [(str "coffee_shop",
    { description := str "Warm, inviting coffee shop design with earthy tones"
      color_scheme := [str "#8B4513", str "#D2691E", str "#F5F5DC", str "#FFFFFF", str "#CD853F"]
      layout := str "two_column_hero"
      features := [str "card_grid", str "warm_gradients", str "rounded_corners"]
      example_html_snippet := some (str "\n        <div class=\"hero\">\n          <div class=\"hero-content\">\n            <h1>Welcome to Our Coffee Shop</h1>\n            <p>Experience the finest coffee crafted with love</p>\n            <button class=\"btn-primary\">View Menu</button>\n          </div>\n          <div class=\"hero-image\">\n            <img src=\"...\" alt=\"Coffee\" style=\"width: 100%; max-width: 100%; height: auto;\">\n          </div>\n        </div>\n        ")
      example_css_snippet := some (str "\n        .hero \x7b\n          display: grid;\n          grid-template-columns: 1fr 1fr;\n          gap: 4rem;\n          align-items: center;\n          padding: 4rem 2rem;\n        \x7d\n        ") }),
   (str "tech_startup",
    { description := str "Modern tech startup with clean lines and bold typography"
      color_scheme := [str "#1a1a1a", str "#4a9eff", str "#ffffff", str "#f5f5f5"]
      layout := str "centered_hero"
      features := [str "gradient_backgrounds", str "bold_typography", str "card_hover_effects"]
      example_html_snippet := none
      example_css_snippet := none }),
   (str "portfolio",
    { description := str "Creative portfolio with showcase sections"
      color_scheme := [str "#ffffff", str "#333333", str "#007bff", str "#f8f9fa"]
      layout := str "grid_portfolio"
      features := [str "image_galleries", str "hover_overlays", str "minimal_design"]
      example_html_snippet := none
      example_css_snippet := none })]

/-- The `get_design_reference` function: `DESIGN_PATTERNS.get(design_type.lower())`. -/
def get_design_reference (design_type : Str) : Option DesignPattern :=
  (DESIGN_PATTERNS.find? (fun p => p.1 == lower design_type)).map Prod.snd

/-- The `detect_design_type_from_prompt` function: case-insensitive keyword
matching over the prompt. -/
def detect_design_type_from_prompt (prompt : Str) : Option Str :=
  let pl := lower prompt
  if [str "coffee", str "cafe", str "coffee shop"].any (fun w => hasSub w pl) then
    some (str "coffee_shop")
  else if [str "tech", str "startup", str "saas", str "software"].any (fun w => hasSub w pl) then
    some (str "tech_startup")
  else if [str "portfolio", str "showcase", str "gallery"].any (fun w => hasSub w pl) then
    some (str "portfolio")
  else
    none

end DesignReferences

/-- C10: every non-None category tag returned by the design-category
detector is a key of the design-reference catalog, so looking it up
returns a preset (never `none`). -/
theorem detect_design_type_hits_catalog (prompt tag : Str)
    (h : DesignReferences.detect_design_type_from_prompt prompt = some tag) :
    (DesignReferences.get_design_reference tag).isSome = true := by
  simp only [DesignReferences.detect_design_type_from_prompt] at h
  split_ifs at h <;> injection h with h' <;> rw [← h'] <;> decide

/-- C10 witness: a concrete coffee-shop prompt is detected as
`coffee_shop`, and the catalog lookup for it succeeds. -/
theorem detect_design_type_hits_catalog_witness :
    DesignReferences.detect_design_type_from_prompt (str "build a coffee shop page") =
      some (str "coffee_shop") ∧
    (DesignReferences.get_design_reference (str "coffee_shop")).isSome = true :=
  ⟨by decide, detect_design_type_hits_catalog (str "build a coffee shop page") (str "coffee_shop") (by decide)⟩

/-! ## `app/ai_providers.py` — provider factory -/

namespace AIProviders

/-- The concrete provider variants constructed by `get_provider`. -/
inductive ProviderKind
  | langchainOllama
  | langchainGroq
  | langchainOpenAI
  | groq
  | openai
  | ollama
deriving DecidableEq, Repr

/-- All identifier strings (after lowercasing) that `get_provider` accepts. -/
def supportedProviderNames : List Str :=
  [str "langchain", str "langchain-ollama", str "langchain-groq", str "langchain-openai",
   str "groq", str "openai", str "ollama"]

/-- The identifiers enumerated in the `Unknown provider` error message. -/
def listedProviderNames : List Str :=
  [str "langchain", str "langchain-groq", str "langchain-openai",
   str "groq", str "openai", str "ollama"]

/-- Tail of the `ValueError` message raised for an unknown identifier. -/
def unknownProviderMsgTail : Str :=
  str ". Supported: langchain (default, uses Ollama), langchain-groq, langchain-openai, groq, openai, ollama"

/-- The `get_provider` factory.  Construction side effects of the chosen
variant (credential checks, reachability probes) are outside this model;
only the selection logic is embedded. -/
def get_provider (provider_name : Str) : Except Str ProviderKind :=
  let n := lower provider_name
  if n = str "langchain" ∨ n = str "langchain-ollama" then Except.ok ProviderKind.langchainOllama
  else if n = str "langchain-groq" then Except.ok ProviderKind.langchainGroq
  else if n = str "langchain-openai" then Except.ok ProviderKind.langchainOpenAI
  else if n = str "groq" then Except.ok ProviderKind.groq
  else if n = str "openai" then Except.ok ProviderKind.openai
  else if n = str "ollama" then Except.ok ProviderKind.ollama
  else Except.error (str "Unknown provider: " ++ n ++ unknownProviderMsgTail)

end AIProviders

/-- C8 counterexample: the accepted identifier `langchain-ollama` succeeds,
yet the error message produced for an unknown identifier does not mention
it — so the message does not list the whole supported set. -/
theorem get_provider_message_misses_alias :
    AIProviders.get_provider (str "langchain-ollama") =
      Except.ok AIProviders.ProviderKind.langchainOllama ∧
    (str "langchain-ollama") ∈ AIProviders.supportedProviderNames ∧
    AIProviders.get_provider (str "nonsense") =
      Except.error (str "Unknown provider: nonsense" ++ AIProviders.unknownProviderMsgTail) ∧
    hasSub (str "langchain-ollama")
      (str "Unknown provider: nonsense" ++ AIProviders.unknownProviderMsgTail) = false :=
  ⟨rfl, by decide, rfl, by decide⟩

/-- C8 amended: every identifier whose lowercasing is in the supported set
yields a concrete provider variant; every other identifier fails with a
message that lists the six advertised identifiers (the additionally
accepted alias `langchain-ollama` is not listed). -/
theorem get_provider_spec (name : Str) :
    (lower name ∈ AIProviders.supportedProviderNames →
      ∃ v, AIProviders.get_provider name = Except.ok v) ∧
    (lower name ∉ AIProviders.supportedProviderNames →
      AIProviders.get_provider name =
        Except.error (str "Unknown provider: " ++ lower name ++ AIProviders.unknownProviderMsgTail) ∧
      ∀ s ∈ AIProviders.listedProviderNames,
        hasSub s (str "Unknown provider: " ++ lower name ++ AIProviders.unknownProviderMsgTail) = true) := by
  constructor
  · intro hmem
    simp only [AIProviders.supportedProviderNames, List.mem_cons, List.mem_singleton,
      List.not_mem_nil, or_false] at hmem
    rcases hmem with h | h | h | h | h | h | h <;>
      exact ⟨_, by simp only [AIProviders.get_provider]; rw [h]; rfl⟩
  · intro hmem
    have h1 : ¬(lower name = str "langchain") := fun e => hmem (by simp [AIProviders.supportedProviderNames, e])
    have h2 : ¬(lower name = str "langchain-ollama") := fun e => hmem (by simp [AIProviders.supportedProviderNames, e])
    have h3 : ¬(lower name = str "langchain-groq") := fun e => hmem (by simp [AIProviders.supportedProviderNames, e])
    have h4 : ¬(lower name = str "langchain-openai") := fun e => hmem (by simp [AIProviders.supportedProviderNames, e])
    have h5 : ¬(lower name = str "groq") := fun e => hmem (by simp [AIProviders.supportedProviderNames, e])
    have h6 : ¬(lower name = str "openai") := fun e => hmem (by simp [AIProviders.supportedProviderNames, e])
    have h7 : ¬(lower name = str "ollama") := fun e => hmem (by simp [AIProviders.supportedProviderNames, e])
    refine ⟨by simp [AIProviders.get_provider, h1, h2, h3, h4, h5, h6, h7], ?_⟩
    intro s hs
    have hassoc : str "Unknown provider: " ++ lower name ++ AIProviders.unknownProviderMsgTail
        = (str "Unknown provider: " ++ lower name) ++ AIProviders.unknownProviderMsgTail := by
      simp [List.append_assoc]
    rw [hassoc]
    fin_cases hs <;> exact hasSub_append_right _ _ _ (by decide)

/-- C8 witness: a supported identifier (uppercased, exercising the
lowercasing) succeeds, and the unknown identifier `foo` fails with a
message containing each listed identifier. -/
theorem get_provider_spec_witness :
    (∃ v, AIProviders.get_provider (str "GROQ") = Except.ok v) ∧
    (AIProviders.get_provider (str "foo") =
        Except.error (str "Unknown provider: " ++ lower (str "foo") ++ AIProviders.unknownProviderMsgTail) ∧
      ∀ s ∈ AIProviders.listedProviderNames,
        hasSub s (str "Unknown provider: " ++ lower (str "foo") ++ AIProviders.unknownProviderMsgTail) = true) :=
  ⟨(get_provider_spec (str "GROQ")).1 (by decide),
   (get_provider_spec (str "foo")).2 (by decide)⟩

/-! ## `app/ai_service_v2.py` — generation stages (revision used by the
Django streaming pipeline) and `app/ai_service.py` (earlier revision).

Each stage's provider call is abstracted as an `Except`-valued input (the
reply content, or the error message of the raised exception); `json.loads`
is abstracted as a caller-supplied parse function returning `none` when
the Python original would raise.  Fields of the parsed reply that the code
never reads (`confidence`) are elided. -/

namespace AIServiceV2

/-- The `estimate_tokens` heuristic: characters divided by four. -/
def estimate_tokens (text : Str) : Nat := text.length / 4

/-- A successful provider reply: content plus reported total token usage. -/
structure ProviderReply where
  content : Str
  total_tokens : Nat
deriving DecidableEq, Repr

/-- An intent reply as parsed from JSON (fields may be absent). -/
structure ParsedIntent where
  intent : Option Str
  response : Option Str
deriving DecidableEq, Repr

/-- Result of intent detection as consumed by the orchestrator. -/
structure IntentResult where
  intent : Option Str
  response : Option Str
  usage_total_tokens : Option Nat
deriving DecidableEq, Repr

/-- Markdown-fence removal applied to the model reply before JSON parsing
(identical in `ai_service.py` and `ai_service_v2.py`). -/
def stripJsonMarkdown (content : Str) : Str :=
  if hasSub (str "```json") content then
    strip ((split ((split content (str "```json")).getD 1 []) (str "```")).getD 0 [])
  else if hasSub (str "```") content then
    let parts := split content (str "```")
    if parts.length > 1 then
      let c := strip (parts.getD 1 [])
      if startsWith c (str "json") then strip (c.drop 4) else c
    else content
  else content

/-- The fallback result of `ai_service_v2.detect_user_intent` (its
`except` branch); the unread `confidence` field is elided. -/
def intentFallback (prompt : Str) : IntentResult :=
  { intent := some (str "create_webpage"), response := some (str ""),
    usage_total_tokens := some (estimate_tokens prompt) }

/-- The `detect_user_intent` stage of `ai_service_v2.py`. -/
def detect_user_intent (prompt : Str) (call : Except Str ProviderReply)
    (parseJson : Str → Option ParsedIntent) : IntentResult :=
  match call with
  | Except.ok reply =>
    match parseJson (stripJsonMarkdown reply.content) with
    | some r => { intent := r.intent, response := r.response,
                  usage_total_tokens := some reply.total_tokens }
    | none => intentFallback prompt
  | Except.error _ => intentFallback prompt

/-- The `generate_project_description` stage of `ai_service_v2.py`:
returns a canned default on any failure. -/
def generate_project_description (prompt : Str) (call : Except Str Str) : Str :=
  match call with
  | Except.ok content => strip content
  | Except.error _ => str "A beautiful, modern webpage based on: " ++ prompt

/-- Markdown-fence removal for generated code, parameterised by the
language tag, as in `generate_css_code` / `generate_code_with_streaming`. -/
def stripCodeMarkdown (codeType : Str) (code : Str) : Str :=
  if hasSub (str "```" ++ codeType) code then
    strip ((split ((split code (str "```" ++ codeType)).getD 1 []) (str "```")).getD 0 [])
  else if hasSub (str "```") code then
    let parts := split code (str "```")
    if parts.length > 1 then
      let c := strip (parts.getD 1 [])
      if startsWith c codeType then strip (c.drop codeType.length) else c
    else code
  else code

/-- The `generate_css_code` stage of `ai_service_v2.py`: fence-strips the
reply and returns it; there is no responsive post-processing. -/
def generate_css_code (call : Except Str Str) : Except Str Str :=
  match call with
  | Except.ok content => Except.ok (stripCodeMarkdown (str "css") (strip content))
  | Except.error e => Except.error (str "Error generating CSS: " ++ e)

end AIServiceV2

namespace AIService

/-- The fallback result of `ai_service.detect_user_intent` (its `except`
branch); the unread `confidence` field is elided. -/
def intentFallbackV1 : AIServiceV2.ParsedIntent :=
  { intent := some (str "conversation"),
    response := some (str "I\x27m here to help you create webpages! Try saying something like \x27create a coffee shop page\x27 to get started.") }

/-- The `detect_user_intent` stage of `ai_service.py` (earlier revision). -/
def detect_user_intent (call : Except Str Str)
    (parseJson : Str → Option AIServiceV2.ParsedIntent) : AIServiceV2.ParsedIntent :=
  match call with
  | Except.ok content =>
    match parseJson (AIServiceV2.stripJsonMarkdown (strip content)) with
    | some r => r
    | none => intentFallbackV1
  | Except.error _ => intentFallbackV1

/-- The `generate_project_description` stage of `ai_service.py`: re-raises
any failure as `Exception("Error generating description: ...")`. -/
def generate_project_description (call : Except Str Str) : Except Str Str :=
  match call with
  | Except.ok content => Except.ok (strip content)
  | Except.error e => Except.error (str "Error generating description: " ++ e)

/-- The responsive-design block appended by `generate_code_from_prompt`
when the generated CSS has neither `@media` nor `max-width`. -/
def responsiveCssBlock : Str :=
  str "\n\n/* Responsive Design */\n@media (max-width: 768px) \x7b\n  body \x7b\n    font-size: 14px;\n  \x7d\n  .container \x7b\n    padding: 1rem;\n  \x7d\n\x7d\n"

/-- The alignment reset block prepended by `generate_code_from_prompt`
when the generated CSS mentions neither `text-align` nor `justify-content`. -/
def cssResetBlock : Str :=
  str "* \x7b\n  margin: 0;\n  padding: 0;\n  box-sizing: border-box;\n\x7d\n\n"

/-- The CSS post-processing of `ai_service.generate_code_from_prompt`
(lines 427 to 434). -/
def postProcessCss (css_code : Str) : Str :=
  let css1 :=
    if !hasSub (str "@media") css_code && !hasSub (str "max-width") css_code then
      css_code ++ responsiveCssBlock
    else css_code
  if !hasSub (str "text-align") (lower css1) && !hasSub (str "justify-content") (lower css1) then
    cssResetBlock ++ css1
  else css1

end AIService

/-- C1 counterexample: on a failed backend call, the intent stage of
`ai_service_v2.py` (the revision the streaming pipeline imports) falls
back to intent `create_webpage` with an empty reply — not `conversation`
with a canned reply. -/
theorem detect_user_intent_v2_fallback_not_conversation :
    (AIServiceV2.detect_user_intent (str "hi") (Except.error (str "connection refused"))
        (fun _ => none)).intent = some (str "create_webpage") ∧
    (AIServiceV2.detect_user_intent (str "hi") (Except.error (str "connection refused"))
        (fun _ => none)).intent ≠ some (str "conversation") ∧
    (AIServiceV2.detect_user_intent (str "hi") (Except.error (str "connection refused"))
        (fun _ => none)).response = some (str "") :=
  ⟨rfl, by decide, rfl⟩

/-- C1 amended: neither revision of intent detection ever propagates a
parse or call failure; the `ai_service.py` revision falls back to
`conversation` with a generic canned reply, while the `ai_service_v2.py`
revision used by the streaming pipeline falls back to `create_webpage`
with an empty reply. -/
theorem detect_user_intent_fallbacks (prompt e : Str)
    (reply : AIServiceV2.ProviderReply) (c1 : Str)
    (parse parse2 : Str → Option AIServiceV2.ParsedIntent)
    (hp : parse (AIServiceV2.stripJsonMarkdown reply.content) = none)
    (hq : parse2 (AIServiceV2.stripJsonMarkdown (strip c1)) = none) :
    AIServiceV2.detect_user_intent prompt (Except.error e) parse =
      AIServiceV2.intentFallback prompt ∧
    AIServiceV2.detect_user_intent prompt (Except.ok reply) parse =
      AIServiceV2.intentFallback prompt ∧
    AIService.detect_user_intent (Except.error e) parse2 = AIService.intentFallbackV1 ∧
    AIService.detect_user_intent (Except.ok c1) parse2 = AIService.intentFallbackV1 ∧
    (AIService.intentFallbackV1).intent = some (str "conversation") ∧
    (AIServiceV2.intentFallback prompt).intent = some (str "create_webpage") := by
  refine ⟨rfl, ?_, rfl, ?_, rfl, rfl⟩
  · simp [AIServiceV2.detect_user_intent, hp]
  · simp [AIService.detect_user_intent, hq]

/-- C1 witness: the fallback behaviour at a concrete prompt, error and
unparsable reply. -/
theorem detect_user_intent_fallbacks_witness :
    AIServiceV2.detect_user_intent (str "hi") (Except.error (str "boom")) (fun _ => none) =
      AIServiceV2.intentFallback (str "hi") ∧
    AIServiceV2.detect_user_intent (str "hi")
        (Except.ok { content := str "not json", total_tokens := 7 }) (fun _ => none) =
      AIServiceV2.intentFallback (str "hi") ∧
    AIService.detect_user_intent (Except.error (str "boom")) (fun _ => none) =
      AIService.intentFallbackV1 ∧
    AIService.detect_user_intent (Except.ok (str "not json")) (fun _ => none) =
      AIService.intentFallbackV1 ∧
    (AIService.intentFallbackV1).intent = some (str "conversation") ∧
    (AIServiceV2.intentFallback (str "hi")).intent = some (str "create_webpage") :=
  detect_user_intent_fallbacks (str "hi") (str "boom")
    { content := str "not json", total_tokens := 7 } (str "not json")
    (fun _ => none) (fun _ => none) rfl rfl

/-- C2 counterexample: on a failed backend call the description stage of
`ai_service_v2.py` (the revision the streaming pipeline imports) returns
a canned default description instead of raising. -/
theorem generate_project_description_v2_returns_default :
    AIServiceV2.generate_project_description (str "make a page") (Except.error (str "timeout")) =
      str "A beautiful, modern webpage based on: make a page" := rfl

/-- C2 amended: on backend failure, the `ai_service.py` revision raises
(`Error generating description: ...`) while the `ai_service_v2.py`
revision used by the streaming pipeline returns the canned default
`A beautiful, modern webpage based on: <prompt>`. -/
theorem generate_project_description_failure_paths (prompt e : Str) :
    AIServiceV2.generate_project_description prompt (Except.error e) =
      str "A beautiful, modern webpage based on: " ++ prompt ∧
    AIService.generate_project_description (Except.error e) =
      Except.error (str "Error generating description: " ++ e) :=
  ⟨rfl, rfl⟩

/-- Fence stripping leaves a reply without any triple-backtick fence
unchanged, whatever the language tag. -/
theorem stripCodeMarkdown_id (codeType code : Str)
    (h : hasSub (str "```") code = false) :
    AIServiceV2.stripCodeMarkdown codeType code = code := by
  unfold AIServiceV2.stripCodeMarkdown
  have h1 : hasSub (str "```" ++ codeType) code = false := by
    cases hx : hasSub (str "```" ++ codeType) code
    · rfl
    · rw [hasSub_of_hasSub_append _ _ _ hx] at h
      cases h
  rw [h1, h]
  simp

/-- C5 counterexample: the `generate_css_code` stage of `ai_service_v2.py`
returns a style artifact with no responsive media query unchanged (no
breakpoint appended), and even the `ai_service.py` post-processing skips
the breakpoint for a media-query-free artifact that mentions `max-width`. -/
theorem css_breakpoint_not_uniform :
    AIServiceV2.generate_css_code (Except.ok (str "body \x7b color: red; \x7d")) =
      Except.ok (str "body \x7b color: red; \x7d") ∧
    hasSub (str "@media") (str "body \x7b color: red; \x7d") = false ∧
    AIService.postProcessCss (str "img \x7b max-width: 100%; text-align: center; \x7d") =
      str "img \x7b max-width: 100%; text-align: center; \x7d" ∧
    hasSub (str "@media") (str "img \x7b max-width: 100%; text-align: center; \x7d") = false :=
  ⟨rfl, by decide, rfl, by decide⟩

/-- C5 amended: only the `ai_service.py` combined revision appends the
minimal mobile breakpoint, and only when the style text contains neither
`@media` nor `max-width`; the `ai_service_v2.py` per-artifact revision
returns the fence-stripped reply unchanged. -/
theorem css_breakpoint_postprocessing (css raw : Str)
    (h1 : hasSub (str "@media") css = false)
    (h2 : hasSub (str "max-width") css = false)
    (h3 : hasSub (str "```") (strip raw) = false) :
    (∃ pre, AIService.postProcessCss css = pre ++ (css ++ AIService.responsiveCssBlock)) ∧
    AIServiceV2.generate_css_code (Except.ok raw) = Except.ok (strip raw) := by
  constructor
  · unfold AIService.postProcessCss
    rw [h1, h2]
    simp only [Bool.not_false, Bool.and_self, if_true]
    by_cases hc : (!hasSub (str "text-align") (lower (css ++ AIService.responsiveCssBlock)) &&
        !hasSub (str "justify-content") (lower (css ++ AIService.responsiveCssBlock))) = true
    · exact ⟨AIService.cssResetBlock, by rw [if_pos hc]⟩
    · exact ⟨[], by rw [if_neg hc]; simp⟩
  · have hid : AIServiceV2.stripCodeMarkdown (str "css") (strip raw) = strip raw :=
      stripCodeMarkdown_id (str "css") (strip raw) h3
    simp [AIServiceV2.generate_css_code, hid]

/-- C5 witness: the amended behaviour at concrete artifacts. -/
theorem css_breakpoint_postprocessing_witness :
    (∃ pre, AIService.postProcessCss (str "h1 \x7b color: blue \x7d") =
      pre ++ (str "h1 \x7b color: blue \x7d" ++ AIService.responsiveCssBlock)) ∧
    AIServiceV2.generate_css_code (Except.ok (str "p \x7b margin: 0 \x7d")) =
      Except.ok (strip (str "p \x7b margin: 0 \x7d")) :=
  css_breakpoint_postprocessing (str "h1 \x7b color: blue \x7d") (str "p \x7b margin: 0 \x7d")
    (by decide) (by decide) (by decide)

/-! ## `api/views.py` — preview compositor (`preview_project`)

The four `re.sub` calls that strip stale external references, and the two
block-stripping `re.sub` calls, are modelled by a scanner `reSub` that at
each position attempts a pattern match and removes it, exactly as
`re.sub(pattern, '', s)` does for these patterns (leftmost search, the
`[^>]*` runs bounded by the first `>`, lazy `.*?` up to the first closing
tag).  Every one of these `re.sub` calls carries `re.IGNORECASE`, so all
pattern literals are matched case-insensitively via `ciPrefix`; the plain
`in` checks and `str.replace` calls of the view remain case-sensitive. -/

namespace Views

/-- One pass of `re.sub(pat, '', s)`: `tryMatch` returns the remainder
after a match starting at the given suffix, or `none`.  `fuel` is the
length of the string; every match consumes at least one character. -/
def reSubGo (tryMatch : Str → Option Str) : Nat → Str → Str
  | 0, s => s
  | _ + 1, [] => []
  | fuel + 1, c :: t =>
    match tryMatch (c :: t) with
    | some rem => reSubGo tryMatch fuel rem
    | none => c :: reSubGo tryMatch fuel t

/-- Python `re.sub(pat, '', s)` for the tag patterns used by the views. -/
def reSub (tryMatch : Str → Option Str) (s : Str) : Str := reSubGo tryMatch s.length s

/-- Case-insensitive character comparison, as `re.IGNORECASE` performs
on the ASCII pattern literals used here. -/
def ciChar (a b : Char) : Bool := a.toLower == b.toLower

/-- Case-insensitive prefix test for a pattern literal. -/
def ciPrefix : Str → Str → Bool
  | [], _ => true
  | _ :: _, [] => false
  | a :: as, b :: bs => ciChar a b && ciPrefix as bs

/-- Consume `[^>]*>`: drop up to and including the first `>`. -/
def spanToGt : Str → Option Str
  | [] => none
  | c :: t => if c = '>' then some t else spanToGt t

/-- Consume lazy `.*?` followed by `closeTag` (DOTALL): drop up to and
including the first occurrence of `closeTag`. -/
def findCloseTag (closeTag : Str) : Str → Option Str
  | [] => none
  | c :: t =>
    if ciPrefix closeTag (c :: t) then some ((c :: t).drop closeTag.length)
    else findCloseTag closeTag t

/-- Match `openLit[^>]*>.*?closeTag` at the head of the string. -/
def matchTagBlock (openLit closeTag : Str) (s : Str) : Option Str :=
  if ciPrefix openLit s then
    match spanToGt (s.drop openLit.length) with
    | some afterGt => findCloseTag closeTag afterGt
    | none => none
  else none

/-- The pattern of the fifth `re.sub`: a `<style[^>]*>.*?</style>` block. -/
def matchStyleBlock (s : Str) : Option Str :=
  matchTagBlock (str "<style") (str "</style>") s

/-- The pattern of the sixth `re.sub`: a `<script[^>]*>.*?</script>` block. -/
def matchScriptBlock (s : Str) : Option Str :=
  matchTagBlock (str "<script") (str "</script>") s

/-- Is the character one of the two quote characters of `["\x27]`? -/
def isQuote (c : Char) : Bool := c = '"' || c = Char.ofNat 39

/-- Does `rel=["\x27]stylesheet["\x27]` match at the head of the string? -/
def relStylesheetAt (s : Str) : Bool :=
  ciPrefix (str "rel=") s &&
  (match s.drop 4 with
   | q :: rest =>
     isQuote q && ciPrefix (str "stylesheet") rest &&
       (match rest.drop 10 with
        | q2 :: _ => isQuote q2
        | [] => false)
   | [] => false)

/-- Scan the `>`-free run after `<link` for `rel=["\x27]stylesheet["\x27]`,
then consume `[^>]*>`. -/
def scanRelStylesheet : Str → Option Str
  | [] => none
  | c :: t =>
    if c = '>' then none
    else if relStylesheetAt (c :: t) then spanToGt ((c :: t).drop 16)
    else scanRelStylesheet t

/-- The pattern of the first `re.sub`:
`<link[^>]*rel=["\x27]stylesheet["\x27][^>]*>`. -/
def matchLinkStylesheet (s : Str) : Option Str :=
  if ciPrefix (str "<link") s then scanRelStylesheet (s.drop 5) else none

/-- Is a quote character coming up at index `i` of the string? -/
def quoteAt (s : Str) (i : Nat) : Bool :=
  match s.drop i with
  | q :: _ => isQuote q
  | [] => false

/-- Consume `[^"\x27]*\.css["\x27]`: the closing quote is necessarily the
first quote of the remainder, and must be preceded by `.css`. -/
def scanCssEnd : Str → Option Str
  | [] => none
  | c :: t =>
    if ciPrefix (str ".css") (c :: t) && quoteAt (c :: t) 4 then
      some ((c :: t).drop 5)
    else if isQuote c then none
    else scanCssEnd t

/-- Scan the `>`-free run after `<link` for `href=["\x27][^"\x27]*\.css["\x27]`,
then consume `[^>]*>`. -/
def scanHrefCss : Str → Option Str
  | [] => none
  | c :: t =>
    if c = '>' then none
    else if ciPrefix (str "href=") (c :: t) && quoteAt (c :: t) 5 then
      match scanCssEnd ((c :: t).drop 6) with
      | some rest => spanToGt rest
      | none => scanHrefCss t
    else scanHrefCss t

/-- The pattern of the second `re.sub`:
`<link[^>]*href=["\x27][^"\x27]*\.css["\x27][^>]*>`. -/
def matchLinkCssHref (s : Str) : Option Str :=
  if ciPrefix (str "<link") s then scanHrefCss (s.drop 5) else none

/-- Consume `[^"\x27]*\.js["\x27]`. -/
def scanJsEnd : Str → Option Str
  | [] => none
  | c :: t =>
    if ciPrefix (str ".js") (c :: t) && quoteAt (c :: t) 3 then
      some ((c :: t).drop 4)
    else if isQuote c then none
    else scanJsEnd t

/-- Scan after `<script` for `src=["\x27][^"\x27]*\.js["\x27][^>]*></script>`. -/
def scanSrcJs : Str → Option Str
  | [] => none
  | c :: t =>
    if c = '>' then none
    else if ciPrefix (str "src=") (c :: t) && quoteAt (c :: t) 4 then
      match scanJsEnd ((c :: t).drop 5) with
      | some rest =>
        match spanToGt rest with
        | some afterGt =>
          if ciPrefix (str "</script>") afterGt then some (afterGt.drop 9) else none
        | none => none
      | none => scanSrcJs t
    else scanSrcJs t

/-- The pattern of the third `re.sub`:
`<script[^>]*src=["\x27][^"\x27]*\.js["\x27][^>]*></script>`. -/
def matchScriptSrcJs (s : Str) : Option Str :=
  if ciPrefix (str "<script") s then scanSrcJs (s.drop 7) else none

/-- Consume `[^"\x27]*["\x27]`: drop up to and including the first quote. -/
def scanSrcAnyEnd : Str → Option Str
  | [] => none
  | c :: t => if isQuote c then some t else scanSrcAnyEnd t

/-- Scan after `<script` for `src=["\x27][^"\x27]*["\x27][^>]*>.*?</script>`. -/
def scanSrcAny : Str → Option Str
  | [] => none
  | c :: t =>
    if c = '>' then none
    else if ciPrefix (str "src=") (c :: t) && quoteAt (c :: t) 4 then
      match scanSrcAnyEnd ((c :: t).drop 5) with
      | some rest =>
        match spanToGt rest with
        | some afterGt => findCloseTag (str "</script>") afterGt
        | none => none
      | none => none
    else scanSrcAny t

/-- The pattern of the fourth `re.sub` (DOTALL):
`<script[^>]*src=["\x27][^"\x27]*["\x27][^>]*>.*?</script>`. -/
def matchScriptSrcAny (s : Str) : Option Str :=
  if ciPrefix (str "<script") s then scanSrcAny (s.drop 7) else none

/-- The full-document skeleton built by `preview_project` for a bare
markup fragment (the f-string of lines 331 to 347). -/
def previewSkeleton (title html css js : Str) : Str :=
  str "<!DOCTYPE html>\n<html lang=\"en\">\n<head>\n    <meta charset=\"UTF-8\">\n    <meta name=\"viewport\" content=\"width=device-width, initial-scale=1.0\">\n    <title>" ++
  title ++ str "</title>\n    <style>\n        " ++ css ++
  str "\n    </style>\n</head>\n<body>\n    " ++ html ++
  str "\n    <script>\n        " ++ js ++ str "\n    </script>\n</body>\n</html>"

/-- The composition logic of `preview_project` (`api/views.py` lines
317 to 365): strip stale external references, then either wrap a bare
fragment in a skeleton or inject the style and behaviour blocks into the
existing document. -/
def preview_project_compose (projectName html0 css js : Str) : Str :=
  let h1 := reSub matchLinkStylesheet html0
  let h2 := reSub matchLinkCssHref h1
  let h3 := reSub matchScriptSrcJs h2
  let h4 := reSub matchScriptSrcAny h3
  if !hasSub (str "<!DOCTYPE html>") h4 && !hasSub (str "<html") h4 then
    previewSkeleton projectName h4 css js
  else
    let h5 := reSub matchStyleBlock h4
    let h6 :=
      if hasSub (str "</head>") h5 then
        replace h5 (str "</head>") (str "<style>\n" ++ css ++ str "\n</style>\n</head>")
      else if hasSub (str "<head>") h5 then
        replace h5 (str "<head>") (str "<head>\n<style>\n" ++ css ++ str "\n</style>")
      else
        str "<style>\n" ++ css ++ str "\n</style>\n" ++ h5
    let h7 := reSub matchScriptBlock h6
    if hasSub (str "</body>") h7 then
      replace h7 (str "</body>") (str "<script>\n" ++ js ++ str "\n</script>\n</body>")
    else
      h7 ++ str "\n<script>\n" ++ js ++ str "\n</script>"

end Views

/-! ## Identity lemmas for the compositor scanners -/

/-- A character-level prefix mismatch plus a tail miss give a whole miss. -/
theorem hasSub_cons_false (n : Str) (c : Char) (b : Str)
    (hp : n.isPrefixOf (c :: b) = false) (hb : hasSub n b = false) :
    hasSub n (c :: b) = false := by
  simp [hasSub, hp, hb]

/-- Gluing two miss regions across a separator character that the needle
does not contain cannot create an occurrence. -/
theorem hasSub_append_cons_false (n a b : Str) (c : Char) (hc : c ∉ n)
    (ha : hasSub n a = false) (hb : hasSub n (c :: b) = false) :
    hasSub n (a ++ c :: b) = false := by
  induction a with
  | nil => simpa using hb
  | cons x xs ih =>
    simp only [hasSub, Bool.or_eq_false_iff] at ha
    obtain ⟨hpa, hta⟩ := ha
    have htail := ih hta
    simp only [List.cons_append, hasSub, Bool.or_eq_false_iff]
    refine ⟨?_, htail⟩
    cases hppre : n.isPrefixOf (x :: xs ++ c :: b)
    · exact hppre
    · exfalso
      have hpre : n <+: (x :: xs) ++ (c :: b) :=
        List.isPrefixOf_iff_prefix.mp hppre
      have hx : (x :: xs) <+: (x :: xs) ++ (c :: b) := List.prefix_append _ _
      rcases List.prefix_or_prefix_of_prefix hpre hx with hnp | hpn
      · have htrue := List.isPrefixOf_iff_prefix.mpr hnp
        rw [hpa] at htrue
        simp at htrue
      · obtain ⟨w, hw⟩ := hpn
        have hwpre : w <+: c :: b := by
          have h2 := hpre
          rw [← hw] at h2
          exact (List.prefix_append_right_inj (x :: xs)).mp h2
        cases w with
        | nil =>
          have htrue : n.isPrefixOf (x :: xs) = true := by
            rw [List.isPrefixOf_iff_prefix, ← hw]
            simp
          rw [hpa] at htrue
          simp at htrue
        | cons c2 w2 =>
          have hcc : c2 = c := (List.cons_prefix_cons.mp hwpre).1
          have hmem : c ∈ n := by
            rw [← hw, hcc]
            simp
          exact hc hmem

/-- Case-insensitive substring containment (an occurrence that
`re.IGNORECASE` matching would find). -/
def Views.ciHasSub (n : Str) : Str → Bool
  | [] => n.isEmpty
  | c :: t => Views.ciPrefix n (c :: t) || ciHasSub n t

/-- Case-insensitive prefix testing is ordinary prefix testing of the
lowered strings. -/
theorem ciPrefix_eq : ∀ n s : Str, Views.ciPrefix n s = (lower n).isPrefixOf (lower s) := by
  intro n
  induction n with
  | nil => intro s; cases s <;> rfl
  | cons a as ih =>
    intro s
    cases s with
    | nil => rfl
    | cons b bs =>
      show (Views.ciChar a b && Views.ciPrefix as bs) = _
      rw [ih bs]
      rfl

/-- Case-insensitive containment is ordinary containment of the lowered
strings. -/
theorem ciHasSub_eq : ∀ n s : Str, Views.ciHasSub n s = hasSub (lower n) (lower s) := by
  intro n s
  induction s with
  | nil =>
    show n.isEmpty = (lower n).isEmpty
    cases n <;> rfl
  | cons c t ih =>
    show (Views.ciPrefix n (c :: t) || Views.ciHasSub n t) = _
    rw [ciPrefix_eq, ih]
    rfl

/-- A case-insensitive prefix mismatch plus a tail miss give a whole miss. -/
theorem ciHasSub_cons_false (n : Str) (c : Char) (b : Str)
    (hp : Views.ciPrefix n (c :: b) = false) (hb : Views.ciHasSub n b = false) :
    Views.ciHasSub n (c :: b) = false := by
  show (Views.ciPrefix n (c :: b) || Views.ciHasSub n b) = false
  rw [hp, hb]
  rfl

/-- Gluing two case-insensitive miss regions across a separator character
that the lowered needle does not contain cannot create an occurrence. -/
theorem ciHasSub_append_cons_false (n a b : Str) (c : Char) (hc : c.toLower ∉ lower n)
    (ha : Views.ciHasSub n a = false) (hb : Views.ciHasSub n (c :: b) = false) :
    Views.ciHasSub n (a ++ c :: b) = false := by
  rw [ciHasSub_eq] at ha hb ⊢
  have hcons : lower (c :: b) = c.toLower :: lower b := rfl
  rw [hcons] at hb
  have hsplit : lower (a ++ c :: b) = lower a ++ c.toLower :: lower b := by
    simp [lower]
  rw [hsplit]
  exact hasSub_append_cons_false _ _ _ _ hc ha hb

/-- A scanner whose matcher only fires on a (case-insensitive) trigger
literal leaves a string without that literal unchanged. -/
theorem reSubGo_id (tryMatch : Str → Option Str) (trigger : Str)
    (hm : ∀ s r, tryMatch s = some r → Views.ciPrefix trigger s = true) :
    ∀ fuel s, Views.ciHasSub trigger s = false → Views.reSubGo tryMatch fuel s = s := by
  intro fuel
  induction fuel with
  | zero => intro s _; rfl
  | succ m ih =>
    intro s hs
    cases s with
    | nil => rfl
    | cons c t =>
      simp only [Views.ciHasSub, Bool.or_eq_false_iff] at hs
      obtain ⟨hp, ht⟩ := hs
      simp only [Views.reSubGo]
      cases hmt : tryMatch (c :: t) with
      | some r =>
        rw [hm _ _ hmt] at hp
        simp at hp
      | none =>
        rw [ih t ht]

/-- `reSub` instance of the identity lemma. -/
theorem reSub_id (tryMatch : Str → Option Str) (trigger : Str)
    (hm : ∀ s r, tryMatch s = some r → Views.ciPrefix trigger s = true)
    (s : Str) (hs : Views.ciHasSub trigger s = false) : Views.reSub tryMatch s = s :=
  reSubGo_id tryMatch trigger hm s.length s hs

/-- `str.replace` leaves a string without the pattern unchanged,
whatever the fuel. -/
theorem replaceGo_id (old new : Str) :
    ∀ fuel s, hasSub old s = false → replaceGo old new fuel s = s := by
  intro fuel
  induction fuel with
  | zero => intro s _; rfl
  | succ m ih =>
    intro s h
    cases s with
    | nil => rfl
    | cons c t =>
      simp only [hasSub, Bool.or_eq_false_iff] at h
      obtain ⟨hp, ht⟩ := h
      simp only [replaceGo, hp, Bool.false_and, if_false]
      rw [ih t ht]
      simp

/-- Each matcher fires only where its trigger literal starts. -/
theorem matchTagBlock_trigger (openLit closeTag s r : Str)
    (h : Views.matchTagBlock openLit closeTag s = some r) :
    Views.ciPrefix openLit s = true := by
  unfold Views.matchTagBlock at h
  cases hp : Views.ciPrefix openLit s
  · rw [hp] at h; simp at h
  · rfl

/-- Trigger lemma for the style-block matcher. -/
theorem matchStyleBlock_trigger (s r : Str) (h : Views.matchStyleBlock s = some r) :
    Views.ciPrefix (str "<style") s = true :=
  matchTagBlock_trigger _ _ _ _ h

/-- Trigger lemma for the script-block matcher. -/
theorem matchScriptBlock_trigger (s r : Str) (h : Views.matchScriptBlock s = some r) :
    Views.ciPrefix (str "<script") s = true :=
  matchTagBlock_trigger _ _ _ _ h

/-- Trigger lemma for the stylesheet-link matcher. -/
theorem matchLinkStylesheet_trigger (s r : Str) (h : Views.matchLinkStylesheet s = some r) :
    Views.ciPrefix (str "<link") s = true := by
  unfold Views.matchLinkStylesheet at h
  cases hp : Views.ciPrefix (str "<link") s
  · rw [hp] at h; simp at h
  · rfl

/-- Trigger lemma for the css-href-link matcher. -/
theorem matchLinkCssHref_trigger (s r : Str) (h : Views.matchLinkCssHref s = some r) :
    Views.ciPrefix (str "<link") s = true := by
  unfold Views.matchLinkCssHref at h
  cases hp : Views.ciPrefix (str "<link") s
  · rw [hp] at h; simp at h
  · rfl

/-- Trigger lemma for the js-src-script matcher. -/
theorem matchScriptSrcJs_trigger (s r : Str) (h : Views.matchScriptSrcJs s = some r) :
    Views.ciPrefix (str "<script") s = true := by
  unfold Views.matchScriptSrcJs at h
  cases hp : Views.ciPrefix (str "<script") s
  · rw [hp] at h; simp at h
  · rfl

/-- Trigger lemma for the any-src-script matcher. -/
theorem matchScriptSrcAny_trigger (s r : Str) (h : Views.matchScriptSrcAny s = some r) :
    Views.ciPrefix (str "<script") s = true := by
  unfold Views.matchScriptSrcAny at h
  cases hp : Views.ciPrefix (str "<script") s
  · rw [hp] at h; simp at h
  · rfl

/-- C6 counterexample: for markup with an `<html>` marker but no `<head>`
tag, the composed document places the `<style>` block with the style
content BEFORE the fragment (at position zero of the output), not
appended after it — the segment following the fragment contains no
`<style>` block. -/
theorem preview_style_block_prepended_not_appended :
    Views.preview_project_compose (str "Preview") (str "<html>Hi</html>") (str "X") (str "Y") =
      str "<style>\nX\n</style>\n<html>Hi</html>\n<script>\nY\n</script>" ∧
    (str "<style>").isPrefixOf
      (Views.preview_project_compose (str "Preview") (str "<html>Hi</html>") (str "X") (str "Y")) = true ∧
    hasSub (str "<style>")
      ((split (Views.preview_project_compose (str "Preview") (str "<html>Hi</html>") (str "X") (str "Y"))
        (str "Hi")).getD 1 []) = false := by
  refine ⟨by decide, by decide, by decide⟩

/-- C6 amended: the compositor is total (never raises) and, for markup
containing an `<html>` marker but no head element and no stray
`<style>`/`<script>`/`<link>` markers in any letter case (the
`re.IGNORECASE` substitutions would strip those) nor a `</body>` marker
in this exact case (plain `in`/`replace` checks are case-sensitive),
with the style artifact likewise free of `<script>` (any case) and
`</body>` (exact case), the output is exactly the `<style>` block
holding the style content prepended directly before the fragment,
followed by the `<script>` block; a bare fragment instead gets the
full skeleton with the style inside its head. -/
theorem preview_compose_no_head (name html css js frag : Str)
    (hhtml : hasSub (str "<html") html = true)
    (hhead : hasSub (str "<head>") html = false)
    (hheadc : hasSub (str "</head>") html = false)
    (hlink : Views.ciHasSub (str "<link") html = false)
    (hscript : Views.ciHasSub (str "<script") html = false)
    (hstyle : Views.ciHasSub (str "<style") html = false)
    (hbody : hasSub (str "</body>") html = false)
    (hcss1 : Views.ciHasSub (str "<script") css = false)
    (hcss2 : hasSub (str "</body>") css = false)
    (hfdoc : hasSub (str "<!DOCTYPE html>") frag = false)
    (hfhtml : hasSub (str "<html") frag = false)
    (hflink : Views.ciHasSub (str "<link") frag = false)
    (hfscript : Views.ciHasSub (str "<script") frag = false) :
    Views.preview_project_compose name html css js =
      str "<style>\n" ++ css ++ str "\n</style>\n" ++ html ++
        str "\n<script>\n" ++ js ++ str "\n</script>" ∧
    Views.preview_project_compose name frag css js =
      Views.previewSkeleton name frag css js := by
  have id1 : Views.reSub Views.matchLinkStylesheet html = html :=
    reSub_id _ _ matchLinkStylesheet_trigger html hlink
  have id2 : Views.reSub Views.matchLinkCssHref html = html :=
    reSub_id _ _ matchLinkCssHref_trigger html hlink
  have id3 : Views.reSub Views.matchScriptSrcJs html = html :=
    reSub_id _ _ matchScriptSrcJs_trigger html hscript
  have id4 : Views.reSub Views.matchScriptSrcAny html = html :=
    reSub_id _ _ matchScriptSrcAny_trigger html hscript
  have id5 : Views.reSub Views.matchStyleBlock html = html :=
    reSub_id _ _ matchStyleBlock_trigger html hstyle
  -- the injected document has no `<script` occurrence, in any case
  have hs1 : Views.ciHasSub (str "<script") ('\n' :: html) = false :=
    ciHasSub_cons_false _ _ _ rfl hscript
  have hs2 : Views.ciHasSub (str "<script") (str "</style>" ++ '\n' :: html) = false :=
    ciHasSub_append_cons_false _ _ _ '\n' (by decide) (by decide) hs1
  have hs3 : Views.ciHasSub (str "<script") ('\n' :: (str "</style>" ++ '\n' :: html)) = false :=
    ciHasSub_cons_false _ _ _ rfl hs2
  have hs4 : Views.ciHasSub (str "<script") (css ++ '\n' :: (str "</style>" ++ '\n' :: html)) = false :=
    ciHasSub_append_cons_false _ _ _ '\n' (by decide) hcss1 hs3
  have hs4c : Views.ciHasSub (str "<script") ('\n' :: (css ++ '\n' :: (str "</style>" ++ '\n' :: html))) = false :=
    ciHasSub_cons_false _ _ _ rfl hs4
  have hs5 : Views.ciHasSub (str "<script")
      (str "<style>" ++ '\n' :: (css ++ '\n' :: (str "</style>" ++ '\n' :: html))) = false :=
    ciHasSub_append_cons_false _ _ _ '\n' (by decide) (by decide) hs4c
  have id6 : Views.reSub Views.matchScriptBlock
      (str "<style>\n" ++ (css ++ (str "\n</style>\n" ++ html))) =
      str "<style>\n" ++ (css ++ (str "\n</style>\n" ++ html)) :=
    reSub_id _ _ matchScriptBlock_trigger _ hs5
  -- the injected document has no `</body>` occurrence
  have hb1 : hasSub (str "</body>") ('\n' :: html) = false :=
    hasSub_cons_false _ _ _ rfl hbody
  have hb2 : hasSub (str "</body>") (str "</style>" ++ '\n' :: html) = false :=
    hasSub_append_cons_false _ _ _ '\n' (by decide) (by decide) hb1
  have hb3 : hasSub (str "</body>") ('\n' :: (str "</style>" ++ '\n' :: html)) = false :=
    hasSub_cons_false _ _ _ rfl hb2
  have hb4 : hasSub (str "</body>") (css ++ '\n' :: (str "</style>" ++ '\n' :: html)) = false :=
    hasSub_append_cons_false _ _ _ '\n' (by decide) hcss2 hb3
  have hb4c : hasSub (str "</body>") ('\n' :: (css ++ '\n' :: (str "</style>" ++ '\n' :: html))) = false :=
    hasSub_cons_false _ _ _ rfl hb4
  have hb5 : hasSub (str "</body>")
      (str "<style>\n" ++ (css ++ (str "\n</style>\n" ++ html))) = false :=
    hasSub_append_cons_false (str "</body>") (str "<style>")
      (css ++ '\n' :: (str "</style>" ++ '\n' :: html)) '\n' (by decide) (by decide) hb4c
  constructor
  · simp only [Views.preview_project_compose]
    rw [id1, id2, id3, id4, hhtml]
    simp only [Bool.not_true, Bool.and_false, Bool.false_eq_true, if_false]
    rw [id5, hheadc, hhead]
    simp only [Bool.false_eq_true, if_false, List.append_assoc]
    rw [id6, hb5]
    simp only [Bool.false_eq_true, if_false]
    simp [List.append_assoc]
  · have jd1 : Views.reSub Views.matchLinkStylesheet frag = frag :=
      reSub_id _ _ matchLinkStylesheet_trigger frag hflink
    have jd2 : Views.reSub Views.matchLinkCssHref frag = frag :=
      reSub_id _ _ matchLinkCssHref_trigger frag hflink
    have jd3 : Views.reSub Views.matchScriptSrcJs frag = frag :=
      reSub_id _ _ matchScriptSrcJs_trigger frag hfscript
    have jd4 : Views.reSub Views.matchScriptSrcAny frag = frag :=
      reSub_id _ _ matchScriptSrcAny_trigger frag hfscript
    simp only [Views.preview_project_compose]
    rw [jd1, jd2, jd3, jd4, hfdoc, hfhtml]
    simp

/-- C6 witness: the amended behaviour at concrete artifacts. -/
theorem preview_compose_no_head_witness :
    Views.preview_project_compose (str "Site") (str "<html>Hello</html>") (str "h1: red") (str "go()") =
      str "<style>\n" ++ str "h1: red" ++ str "\n</style>\n" ++ str "<html>Hello</html>" ++
        str "\n<script>\n" ++ str "go()" ++ str "\n</script>" ∧
    Views.preview_project_compose (str "Site") (str "<p>x</p>") (str "h1: red") (str "go()") =
      Views.previewSkeleton (str "Site") (str "<p>x</p>") (str "h1: red") (str "go()") :=
  preview_compose_no_head (str "Site") (str "<html>Hello</html>") (str "h1: red") (str "go()") (str "<p>x</p>")
    (by decide) (by decide) (by decide) (by decide) (by decide) (by decide) (by decide)
    (by decide) (by decide) (by decide) (by decide) (by decide) (by decide)

/-! ## `api/views.py` — streaming orchestrator (`stream_project_creation`)

The async generator is modelled as a function from an environment of
stage outcomes to the finite list of emitted events, in emission order.
Stages that never raise (`detect_user_intent`, description, todo and
requirement extraction in `ai_service_v2.py`) contribute their results;
stages that can raise (provider construction, DB create, directory
creation, the three code-generation calls, the three artifact saves)
contribute `Except` outcomes.  `str(todo_list_data)` appears only inside
a token estimate and is abstracted by its length `todoStrLen`. -/

namespace Views

/-- One raw entry of the todo list returned by `generate_todo_list`
(JSON dict whose `id`/`task` keys may be missing). -/
structure TodoInput where
  id : Option Nat
  task : Option Str
deriving DecidableEq, Repr

/-- One orchestrator todo item. -/
structure Todo where
  id : Nat
  task : Str
  completed : Bool
deriving DecidableEq, Repr

/-- The loop of lines 420 to 427: `enumerate(todo_list_data, 1)` with
per-item defaults. -/
def buildTodoList (data : List TodoInput) : List Todo :=
  data.enum.map (fun p =>
    { id := p.2.id.getD (p.1 + 1), task := p.2.task.getD (str ""), completed := false })

/-- The discriminated union of stream events (the JSON payload fields the
code emits, with the transport framing elided). -/
inductive Event where
  | thinking (message : Str)
  | conversation (message : Str) (intent : Option Str)
  | description (d : Str)
  | todoTyping (todo_id : Nat) (partText : Str)
  | todoItem (todo : Todo)
  | todoComplete
  | projectCreated (project_id : Nat)
  | taskStart (task_id : Nat) (task : Str)
  | taskComplete (task_id completed_count total_tasks : Nat)
  | codeStart (file : Str)
  | codeLine (file : Str) (line : Str)
  | codeComplete (file : Str) (content : Str) (file_size : Nat)
  | tokensUpdate (remaining_tokens : Int) (token_limit : Nat)
  | codeGenerated (message : Str)
  | complete (project_id : Nat) (todo_list : List Todo) (description : Str)
      (tokens_used : Nat) (token_limit : Nat) (remaining_tokens : Int)
  | error (message : Str)
deriving DecidableEq, Repr

/-- The character-by-character `todo_typing` reveal of lines 429 to 433. -/
def todoTypingEvents (t : Todo) : List Event :=
  (List.range (t.task.length + 1)).map (fun i => Event.todoTyping t.id (t.task.take i))

/-- The per-item `todo_typing`/`todo_item` emission of lines 420 to 435. -/
def todoAnnounceEvents (todos : List Todo) : List Event :=
  todos.flatMap (fun t => todoTypingEvents t ++ [Event.todoItem t])

/-- Python `code.split('\n')` followed by `yield line + '\n'` per line. -/
def pyLines (code : Str) : List Str :=
  (split code (str "\n")).map (fun l => l ++ str "\n")

/-- The `code_line` events of one streaming code-generation stage. -/
def codeLineEvents (file : Str) (lines : List Str) : List Event :=
  lines.map (fun l => Event.codeLine file l)

/-- Mark one todo item completed in place (`todo_list[i]["completed"] = True`). -/
def markDone (todos : List Todo) (i : Nat) : List Todo :=
  match todos.get? i with
  | some t => todos.set i { t with completed := true }
  | none => todos

/-- The id read back from the (mutated) list for a `task_complete` event. -/
def idAt (todos : List Todo) (i : Nat) : Nat := ((todos.get? i).map Todo.id).getD 0

/-- The token limit reported by `get_remaining_tokens()` in `ai_service.py`. -/
def TOKEN_LIMIT : Nat := 30000

/-- The final catch-up loop of lines 578 to 580, marking items `4..` done. -/
def markDoneFrom (todos : List Todo) (k : Nat) : List Todo :=
  (List.range' k (todos.length - k)).foldl markDone todos

/-- The `task_complete` events emitted by the catch-up loop. -/
def tailTaskCompletes (todos : List Todo) : List Event :=
  (List.range' 4 (todos.length - 4)).map
    (fun idx => Event.taskComplete (idAt todos idx) (idx + 1) todos.length)

/-- Environment of stage outcomes for one pipeline run. -/
structure StreamEnv where
  prompt : Str
  providerName : Str
  providerInit : Except Str Unit
  intentResult : AIServiceV2.IntentResult
  description : Str
  todoData : List TodoInput
  todoStrLen : Nat
  projectCreate : Except Str Nat
  dirCreate : Except Str Unit
  htmlReply : Except Str Str
  cssReply : Except Str Str
  jsReply : Except Str Str
  saveHtml : Except Str Unit
  saveCss : Except Str Unit
  saveJs : Except Str Unit
deriving Repr

/-- The event trace of `stream_project_creation` (`api/views.py` lines
380 to 598).  Every `except` branch of the Python code corresponds to an
`Except.error` match emitting the terminal `error` event; the single
success path ends with the terminal `complete` event. -/
def streamProjectCreation (env : StreamEnv) : List Event :=
  match env.providerInit with
  | Except.error e =>
    [Event.error (str "Failed to initialize " ++ env.providerName ++ str " provider: " ++ e)]
  | Except.ok _ =>
    let ir := env.intentResult
    let t0 := ir.usage_total_tokens.getD (AIServiceV2.estimate_tokens env.prompt)
    Event.thinking (str "Understanding your request...") ::
    (if ir.intent ≠ some (str "create_webpage") then
      [Event.conversation (ir.response.getD (str "How can I help you?")) ir.intent]
    else
      Event.thinking (str "Generating project description...") ::
      Event.description env.description ::
      Event.thinking (str "Creating detailed plan...") ::
      (let t1 := t0 + AIServiceV2.estimate_tokens (env.prompt ++ env.description)
       let t2 := t1 + (env.prompt.length + env.todoStrLen) / 4
       let todos := buildTodoList env.todoData
       todoAnnounceEvents todos ++
       Event.todoComplete ::
       Event.thinking (str "Setting up project structure...") ::
       (match env.projectCreate with
        | Except.error e => [Event.error e]
        | Except.ok pid =>
          Event.projectCreated pid ::
          (match env.dirCreate with
           | Except.error e => [Event.error e]
           | Except.ok _ =>
             let todos1 := if todos.length > 0 then markDone todos 0 else todos
             (if todos.length > 0 then
               [Event.taskComplete (idAt todos1 0) 1 todos1.length] else []) ++
             Event.thinking (str "Analyzing design requirements deeply...") ::
             (let t3 := t2 + AIServiceV2.estimate_tokens env.prompt
              Event.taskStart 2 (str "Creating HTML structure") ::
              Event.thinking (str "Deeply analyzing requirements and generating beautiful HTML structure...") ::
              Event.codeStart (str "index.html") ::
              (match env.htmlReply with
               | Except.error e => [Event.error (str "Error generating HTML: " ++ e)]
               | Except.ok reply =>
                 let htmlLines := pyLines (AIServiceV2.stripCodeMarkdown (str "html") (strip reply))
                 let html_code := htmlLines.flatten
                 codeLineEvents (str "index.html") htmlLines ++
                 (let t4 := t3 + AIServiceV2.estimate_tokens (env.prompt ++ html_code)
                  Event.tokensUpdate ((TOKEN_LIMIT : Int) - (t4 : Int)) TOKEN_LIMIT ::
                  (match env.saveHtml with
                   | Except.error e => [Event.error e]
                   | Except.ok _ =>
                     Event.codeComplete (str "index.html") html_code html_code.length ::
                     (let todos2 := if todos1.length > 1 then markDone todos1 1 else todos1
                      (if todos1.length > 1 then
                        [Event.taskComplete (idAt todos2 1) 2 todos2.length] else []) ++
                      Event.taskStart 3 (str "Designing CSS styling") ::
                      Event.thinking (str "Creating beautiful, responsive CSS with animations and modern design...") ::
                      Event.codeStart (str "style.css") ::
                      (match env.cssReply with
                       | Except.error e => [Event.error (str "Error generating CSS: " ++ e)]
                       | Except.ok reply2 =>
                         let cssLines := pyLines (AIServiceV2.stripCodeMarkdown (str "css") (strip reply2))
                         let css_code := cssLines.flatten
                         codeLineEvents (str "style.css") cssLines ++
                         (let t5 := t4 + AIServiceV2.estimate_tokens (env.prompt ++ css_code)
                          Event.tokensUpdate ((TOKEN_LIMIT : Int) - (t5 : Int)) TOKEN_LIMIT ::
                          (match env.saveCss with
                           | Except.error e => [Event.error e]
                           | Except.ok _ =>
                             Event.codeComplete (str "style.css") css_code css_code.length ::
                             (let todos3 := if todos2.length > 2 then markDone todos2 2 else todos2
                              (if todos2.length > 2 then
                                [Event.taskComplete (idAt todos3 2) 3 todos3.length] else []) ++
                              Event.taskStart 4 (str "Adding JavaScript functionality") ::
                              Event.thinking (str "Implementing interactive JavaScript features...") ::
                              Event.codeStart (str "script.js") ::
                              (match env.jsReply with
                               | Except.error e => [Event.error (str "Error generating JS: " ++ e)]
                               | Except.ok reply3 =>
                                 let jsLines := pyLines (AIServiceV2.stripCodeMarkdown (str "js") (strip reply3))
                                 let js_code := jsLines.flatten
                                 codeLineEvents (str "script.js") jsLines ++
                                 (let t6 := t5 + AIServiceV2.estimate_tokens (env.prompt ++ js_code)
                                  Event.tokensUpdate ((TOKEN_LIMIT : Int) - (t6 : Int)) TOKEN_LIMIT ::
                                  (match env.saveJs with
                                   | Except.error e => [Event.error e]
                                   | Except.ok _ =>
                                     Event.codeComplete (str "script.js") js_code js_code.length ::
                                     (let todos4 := if todos3.length > 3 then markDone todos3 3 else todos3
                                      (if todos3.length > 3 then
                                        [Event.taskComplete (idAt todos4 3) 4 todos4.length] else []) ++
                                      tailTaskCompletes todos4 ++
                                      Event.codeGenerated (str "All code files generated and saved successfully") ::
                                      [Event.complete pid (markDoneFrom todos4 4) env.description t6 TOKEN_LIMIT
                                        ((TOKEN_LIMIT : Int) - (t6 : Int))])))))))))))))))))

/-- Terminal events of the stream protocol: `complete` or `error`. -/
def isTerminal : Event → Bool
  | Event.complete _ _ _ _ _ _ => true
  | Event.error _ => true
  | _ => false

/-- Recogniser for `task_complete` events. -/
def isTaskComplete : Event → Bool
  | Event.taskComplete _ _ _ => true
  | _ => false

/-- Recogniser for `todo_item` events. -/
def isTodoItem : Event → Bool
  | Event.todoItem _ => true
  | _ => false

/-- The `completed_count` carried by a `task_complete` event. -/
def ccOf : Event → Nat
  | Event.taskComplete _ cc _ => cc
  | _ => 0

/-- The `total_tasks` carried by a `task_complete` event. -/
def totalOf : Event → Nat
  | Event.taskComplete _ _ tot => tot
  | _ => 0

end Views

/-! ## C3 — terminal-event discipline of the stream -/

/-- No `todo_typing` reveal event is terminal. -/
theorem todoTyping_noTerminal (t : Views.Todo) :
    (Views.todoTypingEvents t).filter Views.isTerminal = [] := by
  simp [Views.todoTypingEvents, List.filter_map, Function.comp, Views.isTerminal]

/-- No todo announcement event is terminal. -/
theorem todoAnnounce_noTerminal (todos : List Views.Todo) :
    (Views.todoAnnounceEvents todos).filter Views.isTerminal = [] := by
  induction todos with
  | nil => rfl
  | cons t ts ih =>
    simp only [Views.todoAnnounceEvents, List.flatMap_cons, List.filter_append] at ih ⊢
    simp [todoTyping_noTerminal t, ih, Views.isTerminal]

/-- No `code_line` event is terminal. -/
theorem codeLines_noTerminal (file : Str) (lines : List Str) :
    (Views.codeLineEvents file lines).filter Views.isTerminal = [] := by
  simp [Views.codeLineEvents, List.filter_map, Function.comp, Views.isTerminal]

/-- No catch-up `task_complete` event is terminal. -/
theorem tailTc_noTerminal (todos : List Views.Todo) :
    (Views.tailTaskCompletes todos).filter Views.isTerminal = [] := by
  simp [Views.tailTaskCompletes, List.filter_map, Function.comp, Views.isTerminal]

/-- No conditional `task_complete` event is terminal. -/
theorem tcIf_noTerminal (c : Prop) [Decidable c] (a b n : Nat) :
    ((if c then [Views.Event.taskComplete a b n] else []).filter Views.isTerminal) = [] := by
  split_ifs <;> rfl

/-- A trace whose prefix is terminal-free and whose final event is the
only terminal one. -/
def cleanThenTerminal (es : List Views.Event) : Prop :=
  es.dropLast.filter Views.isTerminal = [] ∧ (es.filter Views.isTerminal).length = 1

/-- A singleton terminal trace is clean-then-terminal. -/
theorem ctt_single (e : Views.Event) (he : Views.isTerminal e = true) :
    cleanThenTerminal [e] := by
  constructor
  · rfl
  · simp [List.filter_cons, he]

/-- Prepending a non-terminal event preserves the discipline. -/
theorem ctt_cons (e : Views.Event) (he : Views.isTerminal e = false)
    {es : List Views.Event} (hne : es ≠ []) (h : cleanThenTerminal es) :
    cleanThenTerminal (e :: es) := by
  obtain ⟨x, es', rfl⟩ : ∃ x es', es = x :: es' := by
    cases es with
    | nil => exact absurd rfl hne
    | cons x es' => exact ⟨x, es', rfl⟩
  obtain ⟨h1, h2⟩ := h
  constructor
  · rw [List.dropLast_cons₂, List.filter_cons, he]
    simpa using h1
  · rw [List.filter_cons, he]
    simpa using h2

/-- Prepending a terminal-free segment preserves the discipline. -/
theorem ctt_append (xs : List Views.Event) (hxs : xs.filter Views.isTerminal = [])
    {es : List Views.Event} (hne : es ≠ []) (h : cleanThenTerminal es) :
    cleanThenTerminal (xs ++ es) := by
  obtain ⟨x, es', rfl⟩ : ∃ x es', es = x :: es' := by
    cases es with
    | nil => exact absurd rfl hne
    | cons x es' => exact ⟨x, es', rfl⟩
  obtain ⟨h1, h2⟩ := h
  constructor
  · rw [List.dropLast_append_cons, List.filter_append, hxs]
    simpa using h1
  · rw [List.filter_append, hxs]
    simpa using h2

/-- No event of the final `task_complete` block is terminal. -/
theorem tcIf_tail_noTerminal (c : Prop) [Decidable c] (a b n : Nat) (todos : List Views.Todo) :
    (((if c then [Views.Event.taskComplete a b n] else []) ++
      Views.tailTaskCompletes todos).filter Views.isTerminal) = [] := by
  rw [List.filter_append, tcIf_noTerminal, tailTc_noTerminal]
  rfl

/-- Cheap non-emptiness facts used while peeling event traces. -/
theorem append_cons_ne_nil {α : Type} (xs : List α) (e : α) (es : List α) :
    xs ++ e :: es ≠ [] := by simp

/-- A concrete run whose prompt is classified as `conversation`. -/
def conversationEnv : Views.StreamEnv :=
  { prompt := str "hi", providerName := str "ollama", providerInit := Except.ok (),
    intentResult := { intent := some (str "conversation"),
                      response := some (str "Hello! How can I help you?"),
                      usage_total_tokens := some 12 },
    description := str "", todoData := [], todoStrLen := 2,
    projectCreate := Except.ok 1, dirCreate := Except.ok (),
    htmlReply := Except.ok (str ""), cssReply := Except.ok (str ""),
    jsReply := Except.ok (str ""),
    saveHtml := Except.ok (), saveCss := Except.ok (), saveJs := Except.ok () }

/-- C3 counterexample: the early-exit `conversation` path emits a
`thinking` and a `conversation` event and then ends the stream — zero
terminal events, not exactly one. -/
theorem stream_conversation_path_no_terminal :
    Views.streamProjectCreation conversationEnv =
      [Views.Event.thinking (str "Understanding your request..."),
       Views.Event.conversation (str "Hello! How can I help you?") (some (str "conversation"))] ∧
    ((Views.streamProjectCreation conversationEnv).filter Views.isTerminal).length = 0 :=
  ⟨by decide, by decide⟩

set_option maxHeartbeats 3200000 in
/-- C3 amended: no event of any type ever follows a terminal event, and
there is at most one terminal event per stream; every run whose intent is
`create_webpage` ends with exactly one terminal event (`complete` or
`error`), while the early-exit path (non-`create_webpage` intent with a
healthy provider) ends after its `conversation` event with no terminal
event at all. -/
theorem stream_terminal_discipline (env : Views.StreamEnv) :
    ((Views.streamProjectCreation env).dropLast.filter Views.isTerminal = []) ∧
    (env.intentResult.intent = some (str "create_webpage") →
      ((Views.streamProjectCreation env).filter Views.isTerminal).length = 1) ∧
    (env.providerInit = Except.ok () → env.intentResult.intent ≠ some (str "create_webpage") →
      (Views.streamProjectCreation env).filter Views.isTerminal = []) := by
  obtain ⟨prompt, pname, pinit, ir, desc, tdata, tlen, pc, dc, hr, cr, jr, sh, scs, sj⟩ := env
  cases pinit with
  | error e =>
    refine ⟨?_, fun _ => ?_, fun hok _ => ?_⟩
    · simp [Views.streamProjectCreation]
    · simp [Views.streamProjectCreation, Views.isTerminal]
    · exact absurd hok (by simp)
  | ok u =>
    cases u
    by_cases hint : ir.intent = some (str "create_webpage")
    · have H : cleanThenTerminal (Views.streamProjectCreation
        ⟨prompt, pname, Except.ok (), ir, desc, tdata, tlen, pc, dc, hr, cr, jr, sh, scs, sj⟩) := by
        simp only [Views.streamProjectCreation]
        rw [if_neg (by simp [hint])]
        cases pc with
        | error e2 =>
          repeat
            first
            | (refine ctt_cons _ ?_ ?_ ?_
               · rfl
               · first
                 | exact List.cons_ne_nil _ _
                 | exact append_cons_ne_nil _ _ _)
            | (refine ctt_append _ ?_ ?_ ?_
               · first
                 | exact todoAnnounce_noTerminal _
                 | exact codeLines_noTerminal _ _
                 | exact tailTc_noTerminal _
                 | exact tcIf_noTerminal _ _ _ _
                 | exact tcIf_tail_noTerminal _ _ _ _ _
               · first
                 | exact List.cons_ne_nil _ _
                 | exact append_cons_ne_nil _ _ _)
            | (refine ctt_single _ ?_
               rfl)
        | ok pid =>
          cases dc with
          | error e2 =>
            repeat
              first
              | (refine ctt_cons _ ?_ ?_ ?_
                 · rfl
                 · first
                   | exact List.cons_ne_nil _ _
                   | exact append_cons_ne_nil _ _ _)
              | (refine ctt_append _ ?_ ?_ ?_
                 · first
                   | exact todoAnnounce_noTerminal _
                   | exact codeLines_noTerminal _ _
                   | exact tailTc_noTerminal _
                   | exact tcIf_noTerminal _ _ _ _
                   | exact tcIf_tail_noTerminal _ _ _ _ _
                 · first
                   | exact List.cons_ne_nil _ _
                   | exact append_cons_ne_nil _ _ _)
              | (refine ctt_single _ ?_
                 rfl)
          | ok u2 =>
            cases u2
            cases hr with
            | error e2 =>
              repeat
                first
                | (refine ctt_cons _ ?_ ?_ ?_
                   · rfl
                   · first
                     | exact List.cons_ne_nil _ _
                     | exact append_cons_ne_nil _ _ _)
                | (refine ctt_append _ ?_ ?_ ?_
                   · first
                     | exact todoAnnounce_noTerminal _
                     | exact codeLines_noTerminal _ _
                     | exact tailTc_noTerminal _
                     | exact tcIf_noTerminal _ _ _ _
                     | exact tcIf_tail_noTerminal _ _ _ _ _
                   · first
                     | exact List.cons_ne_nil _ _
                     | exact append_cons_ne_nil _ _ _)
                | (refine ctt_single _ ?_
                   rfl)
            | ok hraw =>
              cases sh with
              | error e2 =>
                repeat
                  first
                  | (refine ctt_cons _ ?_ ?_ ?_
                     · rfl
                     · first
                       | exact List.cons_ne_nil _ _
                       | exact append_cons_ne_nil _ _ _)
                  | (refine ctt_append _ ?_ ?_ ?_
                     · first
                       | exact todoAnnounce_noTerminal _
                       | exact codeLines_noTerminal _ _
                       | exact tailTc_noTerminal _
                       | exact tcIf_noTerminal _ _ _ _
                       | exact tcIf_tail_noTerminal _ _ _ _ _
                     · first
                       | exact List.cons_ne_nil _ _
                       | exact append_cons_ne_nil _ _ _)
                  | (refine ctt_single _ ?_
                     rfl)
              | ok u3 =>
                cases u3
                cases cr with
                | error e2 =>
                  repeat
                    first
                    | (refine ctt_cons _ ?_ ?_ ?_
                       · rfl
                       · first
                         | exact List.cons_ne_nil _ _
                         | exact append_cons_ne_nil _ _ _)
                    | (refine ctt_append _ ?_ ?_ ?_
                       · first
                         | exact todoAnnounce_noTerminal _
                         | exact codeLines_noTerminal _ _
                         | exact tailTc_noTerminal _
                         | exact tcIf_noTerminal _ _ _ _
                         | exact tcIf_tail_noTerminal _ _ _ _ _
                       · first
                         | exact List.cons_ne_nil _ _
                         | exact append_cons_ne_nil _ _ _)
                    | (refine ctt_single _ ?_
                       rfl)
                | ok craw =>
                  cases scs with
                  | error e2 =>
                    repeat
                      first
                      | (refine ctt_cons _ ?_ ?_ ?_
                         · rfl
                         · first
                           | exact List.cons_ne_nil _ _
                           | exact append_cons_ne_nil _ _ _)
                      | (refine ctt_append _ ?_ ?_ ?_
                         · first
                           | exact todoAnnounce_noTerminal _
                           | exact codeLines_noTerminal _ _
                           | exact tailTc_noTerminal _
                           | exact tcIf_noTerminal _ _ _ _
                           | exact tcIf_tail_noTerminal _ _ _ _ _
                         · first
                           | exact List.cons_ne_nil _ _
                           | exact append_cons_ne_nil _ _ _)
                      | (refine ctt_single _ ?_
                         rfl)
                  | ok u4 =>
                    cases u4
                    cases jr with
                    | error e2 =>
                      repeat
                        first
                        | (refine ctt_cons _ ?_ ?_ ?_
                           · rfl
                           · first
                             | exact List.cons_ne_nil _ _
                             | exact append_cons_ne_nil _ _ _)
                        | (refine ctt_append _ ?_ ?_ ?_
                           · first
                             | exact todoAnnounce_noTerminal _
                             | exact codeLines_noTerminal _ _
                             | exact tailTc_noTerminal _
                             | exact tcIf_noTerminal _ _ _ _
                             | exact tcIf_tail_noTerminal _ _ _ _ _
                           · first
                             | exact List.cons_ne_nil _ _
                             | exact append_cons_ne_nil _ _ _)
                        | (refine ctt_single _ ?_
                           rfl)
                    | ok jraw =>
                      cases sj with
                      | error e2 =>
                        repeat
                          first
                          | (refine ctt_cons _ ?_ ?_ ?_
                             · rfl
                             · first
                               | exact List.cons_ne_nil _ _
                               | exact append_cons_ne_nil _ _ _)
                          | (refine ctt_append _ ?_ ?_ ?_
                             · first
                               | exact todoAnnounce_noTerminal _
                               | exact codeLines_noTerminal _ _
                               | exact tailTc_noTerminal _
                               | exact tcIf_noTerminal _ _ _ _
                               | exact tcIf_tail_noTerminal _ _ _ _ _
                             · first
                               | exact List.cons_ne_nil _ _
                               | exact append_cons_ne_nil _ _ _)
                          | (refine ctt_single _ ?_
                             rfl)
                      | ok u5 =>
                        cases u5
                        repeat
                          first
                          | (refine ctt_cons _ ?_ ?_ ?_
                             · rfl
                             · first
                               | exact List.cons_ne_nil _ _
                               | exact append_cons_ne_nil _ _ _)
                          | (refine ctt_append _ ?_ ?_ ?_
                             · first
                               | exact todoAnnounce_noTerminal _
                               | exact codeLines_noTerminal _ _
                               | exact tailTc_noTerminal _
                               | exact tcIf_noTerminal _ _ _ _
                               | exact tcIf_tail_noTerminal _ _ _ _ _
                             · first
                               | exact List.cons_ne_nil _ _
                               | exact append_cons_ne_nil _ _ _)
                          | (refine ctt_single _ ?_
                             rfl)
      exact ⟨H.1, fun _ => H.2, fun _ hc => absurd hint hc⟩
    · have htr : Views.streamProjectCreation
          ⟨prompt, pname, Except.ok (), ir, desc, tdata, tlen, pc, dc, hr, cr, jr, sh, scs, sj⟩ =
          [Views.Event.thinking (str "Understanding your request..."),
           Views.Event.conversation (ir.response.getD (str "How can I help you?")) ir.intent] := by
        simp only [Views.streamProjectCreation]
        rw [if_pos hint]
      refine ⟨?_, fun hcw => absurd hcw hint, fun _ _ => ?_⟩
      · rw [htr]; rfl
      · rw [htr]; rfl

/-! ## C4 — task_complete progression -/

/-- No `todo_typing` event is a `task_complete`. -/
theorem todoTyping_noTaskComplete (t : Views.Todo) :
    (Views.todoTypingEvents t).filter Views.isTaskComplete = [] := by
  simp [Views.todoTypingEvents, List.filter_map, Function.comp, Views.isTaskComplete]

/-- No todo announcement event is a `task_complete`. -/
theorem todoAnnounce_noTaskComplete (todos : List Views.Todo) :
    (Views.todoAnnounceEvents todos).filter Views.isTaskComplete = [] := by
  induction todos with
  | nil => rfl
  | cons t ts ih =>
    simp only [Views.todoAnnounceEvents, List.flatMap_cons, List.filter_append] at ih ⊢
    simp [todoTyping_noTaskComplete t, ih, Views.isTaskComplete]

/-- No `code_line` event is a `task_complete`. -/
theorem codeLines_noTaskComplete (file : Str) (lines : List Str) :
    (Views.codeLineEvents file lines).filter Views.isTaskComplete = [] := by
  simp [Views.codeLineEvents, List.filter_map, Function.comp, Views.isTaskComplete]

/-- No `todo_typing` event is a `todo_item`. -/
theorem todoTyping_noTodoItem (t : Views.Todo) :
    (Views.todoTypingEvents t).filter Views.isTodoItem = [] := by
  simp [Views.todoTypingEvents, List.filter_map, Function.comp, Views.isTodoItem]

/-- The todo announcement emits exactly one `todo_item` per todo. -/
theorem todoAnnounce_items (todos : List Views.Todo) :
    ((Views.todoAnnounceEvents todos).filter Views.isTodoItem).length = todos.length := by
  induction todos with
  | nil => rfl
  | cons t ts ih =>
    simp only [Views.todoAnnounceEvents, List.flatMap_cons, List.filter_append,
      List.length_append] at ih ⊢
    simp [todoTyping_noTodoItem t, Views.isTodoItem, ih, Nat.add_comm]

/-- No `code_line` event is a `todo_item`. -/
theorem codeLines_noTodoItem (file : Str) (lines : List Str) :
    (Views.codeLineEvents file lines).filter Views.isTodoItem = [] := by
  simp [Views.codeLineEvents, List.filter_map, Function.comp, Views.isTodoItem]

/-- No catch-up `task_complete` event is a `todo_item`. -/
theorem tailTc_noTodoItem (todos : List Views.Todo) :
    (Views.tailTaskCompletes todos).filter Views.isTodoItem = [] := by
  simp [Views.tailTaskCompletes, List.filter_map, Function.comp, Views.isTodoItem]

/-- No conditional `task_complete` event is a `todo_item`. -/
theorem tcIf_noTodoItem (c : Prop) [Decidable c] (a b n : Nat) :
    ((if c then [Views.Event.taskComplete a b n] else []).filter Views.isTodoItem) = [] := by
  split_ifs <;> rfl

/-- Marking a todo done does not change the list length. -/
theorem markDone_length (l : List Views.Todo) (i : Nat) :
    (Views.markDone l i).length = l.length := by
  unfold Views.markDone
  cases l.get? i <;> simp

/-- Conditionally marking a todo done does not change the list length. -/
theorem length_ite_markDone (c : Prop) [Decidable c] (l : List Views.Todo) (i : Nat) :
    (if c then Views.markDone l i else l).length = l.length := by
  split_ifs <;> simp [markDone_length]

/-- Shifting `range'` by one. -/
theorem map_succ_range' : ∀ n s : Nat, (List.range' s n).map (fun x => x + 1) = List.range' (s + 1) n := by
  intro n
  induction n with
  | zero => intro s; rfl
  | succ m ih => intro s; simp [List.range', ih]

/-- The `completed_count` values of the catch-up loop are `5, 6, ...`. -/
theorem tailTc_cc (todos : List Views.Todo) :
    ((Views.tailTaskCompletes todos).filter Views.isTaskComplete).map Views.ccOf =
      List.range' 5 (todos.length - 4) := by
  unfold Views.tailTaskCompletes
  rw [List.filter_map]
  have hall : List.filter (Views.isTaskComplete ∘ fun idx =>
      Views.Event.taskComplete (Views.idAt todos idx) (idx + 1) todos.length)
      (List.range' 4 (todos.length - 4)) = List.range' 4 (todos.length - 4) := by
    apply List.filter_eq_self.mpr
    intro a _
    rfl
  rw [hall, List.map_map]
  exact map_succ_range' (todos.length - 4) 4

/-- Every catch-up `task_complete` carries `total_tasks = todos.length`. -/
theorem tailTc_total (todos : List Views.Todo) (e : Views.Event)
    (he : e ∈ Views.tailTaskCompletes todos) : Views.totalOf e = todos.length := by
  unfold Views.tailTaskCompletes at he
  obtain ⟨idx, -, rfl⟩ := List.mem_map.mp he
  rfl

/-- Recogniser values on the event constructors of the success path. -/
@[simp] theorem isTaskComplete_thinking (m : Str) : Views.isTaskComplete (Views.Event.thinking m) = false := rfl

/-- Recogniser value on `description`. -/
@[simp] theorem isTaskComplete_description (d : Str) : Views.isTaskComplete (Views.Event.description d) = false := rfl

/-- Recogniser value on `todo_complete`. -/
@[simp] theorem isTaskComplete_todoComplete : Views.isTaskComplete Views.Event.todoComplete = false := rfl

/-- Recogniser value on `project_created`. -/
@[simp] theorem isTaskComplete_projectCreated (p : Nat) : Views.isTaskComplete (Views.Event.projectCreated p) = false := rfl

/-- Recogniser value on `task_start`. -/
@[simp] theorem isTaskComplete_taskStart (i : Nat) (t : Str) : Views.isTaskComplete (Views.Event.taskStart i t) = false := rfl

/-- Recogniser value on `code_start`. -/
@[simp] theorem isTaskComplete_codeStart (f : Str) : Views.isTaskComplete (Views.Event.codeStart f) = false := rfl

/-- Recogniser value on `code_complete`. -/
@[simp] theorem isTaskComplete_codeComplete (f c : Str) (n : Nat) : Views.isTaskComplete (Views.Event.codeComplete f c n) = false := rfl

/-- Recogniser value on `tokens_update`. -/
@[simp] theorem isTaskComplete_tokensUpdate (r : Int) (l : Nat) : Views.isTaskComplete (Views.Event.tokensUpdate r l) = false := rfl

/-- Recogniser value on `code_generated`. -/
@[simp] theorem isTaskComplete_codeGenerated (m : Str) : Views.isTaskComplete (Views.Event.codeGenerated m) = false := rfl

/-- Recogniser value on `complete`. -/
@[simp] theorem isTaskComplete_complete (p : Nat) (tl : List Views.Todo) (d : Str) (u l : Nat) (r : Int) :
    Views.isTaskComplete (Views.Event.complete p tl d u l r) = false := rfl

/-- Recogniser value on `task_complete`. -/
@[simp] theorem isTaskComplete_taskComplete (a b n : Nat) : Views.isTaskComplete (Views.Event.taskComplete a b n) = true := rfl

/-- `todo_item` recogniser values on the success-path constructors. -/
@[simp] theorem isTodoItem_thinking (m : Str) : Views.isTodoItem (Views.Event.thinking m) = false := rfl

/-- Recogniser value on `description`. -/
@[simp] theorem isTodoItem_description (d : Str) : Views.isTodoItem (Views.Event.description d) = false := rfl

/-- Recogniser value on `todo_complete`. -/
@[simp] theorem isTodoItem_todoComplete : Views.isTodoItem Views.Event.todoComplete = false := rfl

/-- Recogniser value on `project_created`. -/
@[simp] theorem isTodoItem_projectCreated (p : Nat) : Views.isTodoItem (Views.Event.projectCreated p) = false := rfl

/-- Recogniser value on `task_start`. -/
@[simp] theorem isTodoItem_taskStart (i : Nat) (t : Str) : Views.isTodoItem (Views.Event.taskStart i t) = false := rfl

/-- Recogniser value on `code_start`. -/
@[simp] theorem isTodoItem_codeStart (f : Str) : Views.isTodoItem (Views.Event.codeStart f) = false := rfl

/-- Recogniser value on `code_complete`. -/
@[simp] theorem isTodoItem_codeComplete (f c : Str) (n : Nat) : Views.isTodoItem (Views.Event.codeComplete f c n) = false := rfl

/-- Recogniser value on `tokens_update`. -/
@[simp] theorem isTodoItem_tokensUpdate (r : Int) (l : Nat) : Views.isTodoItem (Views.Event.tokensUpdate r l) = false := rfl

/-- Recogniser value on `code_generated`. -/
@[simp] theorem isTodoItem_codeGenerated (m : Str) : Views.isTodoItem (Views.Event.codeGenerated m) = false := rfl

/-- Recogniser value on `complete`. -/
@[simp] theorem isTodoItem_complete (p : Nat) (tl : List Views.Todo) (d : Str) (u l : Nat) (r : Int) :
    Views.isTodoItem (Views.Event.complete p tl d u l r) = false := rfl

/-- The `completed_count` of a `task_complete` event. -/
@[simp] theorem ccOf_taskComplete (a b n : Nat) : Views.ccOf (Views.Event.taskComplete a b n) = b := rfl

/-- Filtering the conditional `task_complete` block keeps it unchanged. -/
@[simp] theorem tcIf_filter_tc (c : Prop) [Decidable c] (a b n : Nat) :
    ((if c then [Views.Event.taskComplete a b n] else []).filter Views.isTaskComplete) =
      if c then [Views.Event.taskComplete a b n] else [] := by
  split_ifs <;> rfl

/-- Mapping over a conditional singleton. -/
@[simp] theorem map_ite_singleton {α β : Type} (c : Prop) [Decidable c] (f : α → β) (x : α) :
    ((if c then [x] else []).map f) = if c then [f x] else [] := by
  split_ifs <;> rfl

/-- Closed-form of the four conditional counts plus the catch-up counts. -/
theorem tcBlock_counts (n : Nat) :
    (if n > 0 then [1] else []) ++ ((if n > 1 then [2] else []) ++ ((if n > 2 then [3] else []) ++
      ((if n > 3 then [4] else []) ++ List.range' 5 (n - 4)))) = List.range' 1 n := by
  rcases n with _ | (_ | (_ | (_ | m)))
  · rfl
  · rfl
  · rfl
  · rfl
  · have c1 : m + 4 > 0 := by omega
    have c2 : m + 4 > 1 := by omega
    have c3 : m + 4 > 2 := by omega
    have c4 : m + 4 > 3 := by omega
    rw [if_pos c1, if_pos c2, if_pos c3, if_pos c4]
    have h4 : m + 4 - 4 = m := by omega
    rw [h4]
    have hr : List.range' 1 4 ++ List.range' 5 m = List.range' 1 (m + 4) := by
      have := List.range'_append 1 4 m 1
      simpa [Nat.add_comm] using this
    calc [1] ++ ([2] ++ ([3] ++ ([4] ++ List.range' 5 m)))
        = List.range' 1 4 ++ List.range' 5 m := by simp [List.range']
      _ = List.range' 1 (m + 4) := hr

/-- Filtering the catch-up block for `task_complete` keeps it unchanged. -/
theorem tailTc_filter_self (ts : List Views.Todo) :
    (Views.tailTaskCompletes ts).filter Views.isTaskComplete = Views.tailTaskCompletes ts := by
  unfold Views.tailTaskCompletes
  rw [List.filter_map]
  congr 1
  apply List.filter_eq_self.mpr
  intro a _
  rfl

/-- Membership in a conditional singleton forces equality. -/
theorem eq_of_mem_ite_singleton {α : Type} {c : Prop} [Decidable c] {e x : α}
    (h : e ∈ (if c then [x] else [])) : e = x := by
  by_cases hc : c
  · rw [if_pos hc] at h
    exact List.mem_singleton.mp h
  · rw [if_neg hc] at h
    exact absurd h (List.not_mem_nil e)

/-- C4: on every successful pipeline run the `completed_count` values of
the emitted `task_complete` events are exactly `1, 2, ..., n` where `n`
is the number of todo items announced before `todo_complete` (so their
count equals the announced list length and they increase by one, ending
at `total_tasks`), and every `task_complete` carries `total_tasks = n`. -/
theorem stream_task_progression (env : Views.StreamEnv) (pid : Nat) (hraw craw jraw : Str)
    (h1 : env.providerInit = Except.ok ())
    (h2 : env.intentResult.intent = some (str "create_webpage"))
    (h3 : env.projectCreate = Except.ok pid)
    (h4 : env.dirCreate = Except.ok ())
    (h5 : env.htmlReply = Except.ok hraw)
    (h6 : env.cssReply = Except.ok craw)
    (h7 : env.jsReply = Except.ok jraw)
    (h8 : env.saveHtml = Except.ok ())
    (h9 : env.saveCss = Except.ok ())
    (h10 : env.saveJs = Except.ok ()) :
    ((Views.streamProjectCreation env).filter Views.isTaskComplete).map Views.ccOf =
      List.range' 1 (Views.buildTodoList env.todoData).length ∧
    ((Views.streamProjectCreation env).filter Views.isTodoItem).length =
      (Views.buildTodoList env.todoData).length ∧
    (∀ e ∈ (Views.streamProjectCreation env).filter Views.isTaskComplete,
      Views.totalOf e = (Views.buildTodoList env.todoData).length) := by
  simp only [Views.streamProjectCreation, h1, h3, h4, h5, h6, h7, h8, h9, h10]
  rw [if_neg (by simp [h2])]
  generalize Views.buildTodoList env.todoData = todos
  generalize Views.pyLines (AIServiceV2.stripCodeMarkdown (str "html") (strip hraw)) = Lh
  generalize Views.pyLines (AIServiceV2.stripCodeMarkdown (str "css") (strip craw)) = Lc
  generalize Views.pyLines (AIServiceV2.stripCodeMarkdown (str "js") (strip jraw)) = Lj
  simp only [length_ite_markDone, markDone_length]
  refine ⟨?_, ?_, ?_⟩
  · simp only [List.filter_append, List.filter_cons, isTaskComplete_thinking,
      isTaskComplete_description, isTaskComplete_todoComplete, isTaskComplete_projectCreated,
      isTaskComplete_taskStart, isTaskComplete_codeStart, isTaskComplete_codeComplete,
      isTaskComplete_tokensUpdate, isTaskComplete_codeGenerated, isTaskComplete_complete,
      todoAnnounce_noTaskComplete, codeLines_noTaskComplete, tcIf_filter_tc,
      Bool.false_eq_true, if_false, List.filter_nil, List.nil_append, List.append_nil,
      tailTc_cc, List.map_append, map_ite_singleton, ccOf_taskComplete,
      length_ite_markDone, markDone_length]
    exact tcBlock_counts todos.length
  · simp only [List.filter_append, List.filter_cons, isTodoItem_thinking, isTodoItem_description,
      isTodoItem_todoComplete, isTodoItem_projectCreated, isTodoItem_taskStart, isTodoItem_codeStart,
      isTodoItem_codeComplete, isTodoItem_tokensUpdate, isTodoItem_codeGenerated, isTodoItem_complete,
      codeLines_noTodoItem, tcIf_noTodoItem, tailTc_noTodoItem, Bool.false_eq_true, if_false,
      List.filter_nil, List.nil_append, List.append_nil, List.length_append, todoAnnounce_items]
  · intro e he
    simp only [List.filter_append, List.filter_cons, isTaskComplete_thinking,
      isTaskComplete_description, isTaskComplete_todoComplete, isTaskComplete_projectCreated,
      isTaskComplete_taskStart, isTaskComplete_codeStart, isTaskComplete_codeComplete,
      isTaskComplete_tokensUpdate, isTaskComplete_codeGenerated, isTaskComplete_complete,
      todoAnnounce_noTaskComplete, codeLines_noTaskComplete, tcIf_filter_tc,
      Bool.false_eq_true, if_false, List.filter_nil, List.nil_append, List.append_nil,
      tailTc_filter_self] at he
    rcases List.mem_append.mp he with h | h
    · rw [eq_of_mem_ite_singleton h]; rfl
    rcases List.mem_append.mp h with h | h
    · rw [eq_of_mem_ite_singleton h]; rfl
    rcases List.mem_append.mp h with h | h
    · rw [eq_of_mem_ite_singleton h]; rfl
    rcases List.mem_append.mp h with h | h
    · rw [eq_of_mem_ite_singleton h]; rfl
    · simpa [length_ite_markDone, markDone_length] using tailTc_total _ e h

/-- A concrete fully successful run with five todo items. -/
def successEnv : Views.StreamEnv :=
  { prompt := str "hi", providerName := str "ollama", providerInit := Except.ok (),
    intentResult := { intent := some (str "create_webpage"), response := some (str ""),
                      usage_total_tokens := some 9 },
    description := str "A page", todoStrLen := 50,
    todoData := [{ id := some 1, task := some (str "a") }, { id := some 2, task := some (str "b") },
                 { id := some 3, task := some (str "c") }, { id := some 4, task := some (str "d") },
                 { id := some 5, task := some (str "e") }],
    projectCreate := Except.ok 7, dirCreate := Except.ok (),
    htmlReply := Except.ok (str "<html>x</html>"), cssReply := Except.ok (str "body \x7b \x7d"),
    jsReply := Except.ok (str "f()"),
    saveHtml := Except.ok (), saveCss := Except.ok (), saveJs := Except.ok () }

/-- C3 witness: the terminal-event discipline at two concrete runs — a
successful webpage run has exactly one terminal event, and a
conversation run has none. -/
theorem stream_terminal_discipline_witness :
    ((Views.streamProjectCreation successEnv).filter Views.isTerminal).length = 1 ∧
    (Views.streamProjectCreation conversationEnv).filter Views.isTerminal = [] :=
  ⟨(stream_terminal_discipline successEnv).2.1 rfl,
   (stream_terminal_discipline conversationEnv).2.2 rfl (by decide)⟩

/-- C4 witness: the progression at a concrete successful run. -/
theorem stream_task_progression_witness :
    ((Views.streamProjectCreation successEnv).filter Views.isTaskComplete).map Views.ccOf =
      List.range' 1 (Views.buildTodoList successEnv.todoData).length ∧
    ((Views.streamProjectCreation successEnv).filter Views.isTodoItem).length =
      (Views.buildTodoList successEnv.todoData).length ∧
    (∀ e ∈ (Views.streamProjectCreation successEnv).filter Views.isTaskComplete,
      Views.totalOf e = (Views.buildTodoList successEnv.todoData).length) :=
  stream_task_progression successEnv 7 (str "<html>x</html>") (str "body \x7b \x7d") (str "f()")
    rfl rfl rfl rfl rfl rfl rfl rfl rfl rfl
